import Mathlib

/-!
Shallow embedding of the conversational-commerce backend
(`session.py`, `functions.py`, `chat.py`, `main.py`, `models.py`, `tools.py`)
used to check the natural-language specification against the code.

Modelling conventions:
* Python `int` is `Int`, Python `float` is `ℚ` (no claim depends on binary
  float rounding), Python `str` is `String`, `None`-able strings are
  `Option String`.
* Python dictionaries that preserve insertion order are association lists.
  The session cart is declared as `Dict[int, CartItem]` in `session.py` but
  `functions.py` queries it with string SKU keys; a Python dict can hold
  lookups of either type (a `str` key is simply never equal to an `int`
  key), so cart keys are modelled by the sum type `PyKey`.
* Python exceptions (`TypeError`, `AttributeError`, `NameError`, `KeyError`)
  are modelled with `Except PyErr`; the dispatch boundary in
  `chat.execute_tool_call` converts them to structured error objects exactly
  as the source does.
* Committed database state is modelled explicitly: `db.flush()` inside an
  open transaction that is never committed leaves the committed state
  unchanged (the SQLAlchemy session is created with `autocommit=False` and
  closed by `get_db`, discarding uncommitted work).
-/

/-- Python exception values raised by the embedded code. -/
inductive PyErr where
  | typeError (msg : String)
  | attributeError (msg : String)
  | nameError (msg : String)
  | keyError (msg : String)
deriving DecidableEq, Repr

/-- `str(e)` for an exception, as interpolated into dispatch error objects. -/
def PyErr.text : PyErr → String
  | .typeError m => m
  | .attributeError m => m
  | .nameError m => m
  | .keyError m => m

/-- A Python dict key: the session cart receives `int` product ids from
`Session.add_to_cart` (session.py) while the tool layer (functions.py)
probes it with `str` SKUs.  Keys of different runtime types are never
equal in Python. -/
inductive PyKey where
  | intK (n : Int)
  | strK (s : String)
deriving DecidableEq, Repr

/-- session.py `CartItem`: one line of the cart.  Fields are exactly
`product_id`, `quantity`, `name`, `price` — there is no `sku` field. -/
structure CartItem where
  product_id : Int
  quantity : Int
  name : String
  price : ℚ
deriving DecidableEq, Repr

/-- session.py `ShownProduct`. -/
structure ShownProduct where
  position : Int
  product_id : Int
  name : String
  price : ℚ
  sku : String
deriving DecidableEq, Repr

/-- session.py `UserProfile`. -/
structure UserProfile where
  skin_type : Option String := none
  concerns : List String := []
deriving DecidableEq, Repr

/-- session.py `SearchContext` (pagination state). -/
structure SearchContext where
  total_count : Int := 0
  shown_product_ids : List Int := []
  page : Int := 1
  has_more : Bool := false
deriving DecidableEq, Repr

/-- One entry of `conversation_history`: a `{"role": .., "content": ..}`
dict.  `content` is `Option String` because main.py line 155 stores the
`None` returned by `complete_checkout`. -/
structure HistMsg where
  role : String
  content : Option String
deriving DecidableEq, Repr

/-- session.py `Session`: per-connection state. -/
structure Session where
  connection_id : String
  cart : List (PyKey × CartItem) := []
  last_shown_products : List ShownProduct := []
  user_profile : UserProfile := {}
  awaiting_checkout : Bool := false
  conversation_history : List HistMsg := []
  conversation_summary : Option String := none
  search_context : Option SearchContext := none
deriving DecidableEq, Repr

/-- session.py `create_session` / `Session.__init__`. -/
def Session.create (connection_id : String) : Session :=
  { connection_id := connection_id }

/-- Membership test `k in self.cart` for the ordered-dict model. -/
def cartHas (cart : List (PyKey × CartItem)) (k : PyKey) : Bool :=
  (cart.find? (fun kv => kv.1 = k)).isSome

/-- `self.cart[k]` lookup. -/
def cartGet (cart : List (PyKey × CartItem)) (k : PyKey) : Option CartItem :=
  (cart.find? (fun kv => kv.1 = k)).map (fun kv => kv.2)

/-- session.py `Session.add_to_cart` (lines 74-84): increment the quantity
of an existing line, or append a fresh line caching name and price.  The
declared parameter name is `product_id`; no stock validation happens here. -/
def Session.add_to_cart (s : Session) (product_id : PyKey) (quantity : Int)
    (name : String) (price : ℚ) : Session :=
  if cartHas s.cart product_id then
    { s with cart := s.cart.map (fun kv =>
        if kv.1 = product_id then
          (kv.1, { kv.2 with quantity := kv.2.quantity + quantity })
        else kv) }
  else
    { s with cart := s.cart ++
        [(product_id,
          { product_id := match product_id with
              | .intK n => n
              | .strK _ => 0
            , quantity := quantity, name := name, price := price })] }

/-- session.py `Session.remove_from_cart` (lines 86-89): delete if present. -/
def Session.remove_from_cart (s : Session) (product_id : PyKey) : Session :=
  { s with cart := s.cart.filter (fun kv => kv.1 ≠ product_id) }

/-- session.py `Session.update_cart_item` (lines 91-96): quantity 0 removes;
otherwise overwrite the quantity when the key is present (no-op if absent). -/
def Session.update_cart_item (s : Session) (product_id : PyKey) (quantity : Int) :
    Session :=
  if quantity = 0 then s.remove_from_cart product_id
  else if cartHas s.cart product_id then
    { s with cart := s.cart.map (fun kv =>
        if kv.1 = product_id then (kv.1, { kv.2 with quantity := quantity })
        else kv) }
  else s

/-- session.py `Session.get_cart_items`: values in insertion order. -/
def Session.get_cart_items (s : Session) : List CartItem :=
  s.cart.map (fun kv => kv.2)

/-- session.py `Session.clear_cart`. -/
def Session.clear_cart (s : Session) : Session := { s with cart := [] }

/-- session.py `Session.get_cart_total`: `sum(item.price * item.quantity)`. -/
def Session.get_cart_total (s : Session) : ℚ :=
  (s.get_cart_items.map (fun it => it.price * (it.quantity : ℚ))).sum

/-- session.py `Session.update_profile` concerns branch: append each new
concern in lower case unless its lower-case form is already present in the
set built from the existing (unlowered) concern strings. -/
def updateProfileConcerns (existing : List String) : List String → List String
  | [] => existing
  | c :: rest =>
      if c.toLower ∈ existing then updateProfileConcerns existing rest
      else updateProfileConcerns (existing ++ [c.toLower]) rest

/-- session.py `Session.update_profile` (lines 164-179). -/
def Session.update_profile (s : Session) (skin_type : Option String)
    (concerns : Option (List String)) : Session :=
  let s1 := match skin_type with
    | some st => if st ≠ "" then
        { s with user_profile := { s.user_profile with skin_type := some st } }
      else s
    | none => s
  match concerns with
  | some cs => if cs ≠ [] then
      { s1 with user_profile :=
          { s1.user_profile with
            concerns := updateProfileConcerns s1.user_profile.concerns cs } }
    else s1
  | none => s1

/-- session.py `_summarize_old_messages` line rendering: role prefix label
plus the first 100 characters of the content (`msg['content'][:100]`).
Slicing `None` raises `TypeError` in Python, hence the `Except`. -/
def summaryLine (m : HistMsg) : Except PyErr String :=
  match m.content with
  | some c =>
      .ok ((if m.role = "user" then "User" else "Assistant") ++ ": " ++ c.take 100)
  | none => .error (.typeError "\x27NoneType\x27 object is not subscriptable")

/-- Render the oldest messages into summary lines, failing on the first
`None` content exactly as the Python list building would. -/
def summaryLines : List HistMsg → Except PyErr (List String)
  | [] => .ok []
  | m :: rest => do
      let l ← summaryLine m
      let ls ← summaryLines rest
      .ok (l :: ls)

/-- session.py `_summarize_old_messages` summary update: append the block
under an `[Earlier conversation]` header to any existing summary. -/
def appendSummary (old : Option String) (block : String) : String :=
  match old with
  | some s => s ++ "\n\n[Earlier conversation]\n" ++ block
  | none => "[Earlier conversation]\n" ++ block

/-- session.py `Session.add_to_history` (lines 183-220): append the message;
when the list then exceeds 10 entries, render the oldest 5 into the running
summary and keep the rest (`conversation_history[5:]`).  If rendering raises
(a `None` content), the already-performed append survives — the exception is
reported in the second component and propagates to the caller. -/
def Session.add_to_history (s : Session) (role : String) (content : Option String) :
    Session × Option PyErr :=
  if (s.conversation_history ++ [(⟨role, content⟩ : HistMsg)]).length > 10 then
    match summaryLines ((s.conversation_history ++ [(⟨role, content⟩ : HistMsg)]).take 5) with
    | .ok ls =>
        ({ s with
            conversation_history :=
              (s.conversation_history ++ [(⟨role, content⟩ : HistMsg)]).drop 5
            conversation_summary :=
              some (appendSummary s.conversation_summary (String.intercalate "\n" ls)) },
          none)
    | .error e =>
        ({ s with conversation_history :=
            s.conversation_history ++ [(⟨role, content⟩ : HistMsg)] }, some e)
  else
    ({ s with conversation_history :=
        s.conversation_history ++ [(⟨role, content⟩ : HistMsg)] }, none)

/-- Two consecutive `add_to_history` calls, stopping at the first raised
exception (as a raise aborts the caller before the second call). -/
def addHistoryTwo (s : Session) (r1 : String) (c1 : Option String)
    (r2 : String) (c2 : Option String) : Session × Option PyErr :=
  match s.add_to_history r1 c1 with
  | (s1, some e) => (s1, some e)
  | (s1, none) => s1.add_to_history r2 c2

/-- Every stored history content is an actual string (no `None`).  This holds
for every state reachable through the normal agentic flow and is the
precondition under which summarization cannot raise. -/
def HistWF (s : Session) : Prop :=
  ∀ m ∈ s.conversation_history, m.content ≠ none

instance (s : Session) : Decidable (HistWF s) := by
  unfold HistWF; infer_instance

/-! ### Catalog / order store (models.py, database.py) -/

/-- models.py `Product`. -/
structure Product where
  id : Int
  sku : String
  name : String
  brand : String := ""
  category : String := ""
  price : ℚ
  stock : Int
  skin_types : String := ""
  concerns : String := ""
  description : String := ""
  ingredients : String := ""
  volume : String := ""
  image_filename : String := ""
deriving DecidableEq, Repr

/-- models.py `Order` (named `OrderRow` here to avoid clashing with the
mathlib `Order` namespace). -/
structure OrderRow where
  id : String
  customer_name : String
  phone : String
  address : String
  status : String
  created_at : String := ""
deriving DecidableEq, Repr

/-- models.py `OrderItem`: note the column is `product_id` — there is no
`product_sku` column in this revision of models.py. -/
structure OrderItemRow where
  id : Int
  order_id : String
  product_id : Int
  quantity : Int
  price : ℚ
deriving DecidableEq, Repr

/-- The committed relational store. -/
structure DB where
  products : List Product := []
  orders : List OrderRow := []
  order_items : List OrderItemRow := []
deriving DecidableEq, Repr

/-! ### JSON-like tool results and small Python string helpers -/

/-- JSON-like values: the dicts returned by tool functions. -/
inductive JVal where
  | null
  | bool (b : Bool)
  | int (n : Int)
  | float (q : ℚ)
  | str (s : String)
  | arr (xs : List JVal)
  | obj (fields : List (String × JVal))

/-- `d.get(k)` on a dict value (`None`/`none` when absent or not a dict). -/
def JVal.getField : JVal → String → Option JVal
  | .obj fs, k => (fs.find? (fun f => f.1 = k)).map (fun f => f.2)
  | _, _ => none

/-- The orchestrator test `result.get("type") == "initiate_checkout"`
(main.py line 326, chat.py line 221). -/
def JVal.isCheckoutSignal (v : JVal) : Bool :=
  match v.getField "type" with
  | some (.str s) => s = "initiate_checkout"
  | _ => false

/-- An optional string as a JSON value (`None` becomes `null`). -/
def optStr : Option String → JVal
  | some s => .str s
  | none => .null

/-- Does `small` occur at the head of `big`? (helper for substring tests). -/
def listHasPfx : List Char → List Char → Bool
  | _, [] => true
  | [], _ :: _ => false
  | a :: as, b :: bs => a = b && listHasPfx as bs

/-- Does `needle` occur anywhere inside the list? -/
def listHasSub (needle : List Char) : List Char → Bool
  | [] => listHasPfx [] needle
  | c :: t => listHasPfx (c :: t) needle || listHasSub needle t

/-- SQL `column ILIKE '%pat%'`: case-insensitive substring test. -/
def containsCI (hay pat : String) : Bool :=
  listHasSub pat.toLower.toList hay.toLower.toList

/-- Lexicographic (code-point) comparison backing Python string sorting. -/
def strLeList : List Char → List Char → Bool
  | [], _ => true
  | _ :: _, [] => false
  | a :: as, b :: bs => if a = b then strLeList as bs else decide (a.toNat < b.toNat)

/-- `a <= b` on strings by code points. -/
def strLe (a b : String) : Bool := strLeList a.toList b.toList

/-- Stable insertion into a sorted list (new element goes after equals). -/
def insertSorted (le : α → α → Bool) (x : α) : List α → List α
  | [] => [x]
  | y :: ys => if le y x then y :: insertSorted le x ys else x :: y :: ys

/-- Stable insertion sort, modelling `ORDER BY` / `sorted`. -/
def sortOn (le : α → α → Bool) (xs : List α) : List α :=
  xs.foldl (fun acc x => insertSorted le x acc) []

/-- Python `repr` of a non-negative float that the catalog stores
(e.g. `11500.0`); fractional prices print their rational form.  Exact float
formatting is irrelevant to every claim. -/
def pyFloatRepr (q : ℚ) : String :=
  if q.den = 1 then toString q.num ++ ".0" else toString q

/-- Python `f"{x:.2f}"` for the non-negative amounts appearing in cart
summaries (rounding mode approximates CPython, which never matters for the
claims: all exercised amounts are exact). -/
def fmt2 (q : ℚ) : String :=
  let cents : Int := Int.ediv (q.num * 200 + (q.den : Int)) (2 * (q.den : Int))
  let whole := Int.ediv cents 100
  let rest := (Int.emod cents 100).toNat
  toString whole ++ "." ++ (if rest < 10 then "0" else "") ++ toString rest

/-! ### Tool function implementations (functions.py) -/

/-- functions.py `getTotalProductsCount`. -/
def getTotalProductsCount (_s : Session) (db : DB) : Except PyErr JVal :=
  .ok (.obj [
    ("found", .bool true),
    ("totalProductsCount", .int db.products.length),
    ("message", .str ("Total products in store: " ++ toString db.products.length))])

/-- functions.py `updateUserProfile` (lines 428-474).  A truthy `skinType`
reaches `if skinType in SKIN_TYPES` at line 444, but `SKIN_TYPES` is
commented out in this revision (lines 28-36), so the lookup raises
`NameError`.  A falsy `skinType` skips that block; concerns are merged via
`Session.update_profile`. -/
def updateUserProfile (s : Session) (_db : DB) (skinType : Option String)
    (concerns : Option (List String)) : Except PyErr (JVal × Session) :=
  let skinTruthy := match skinType with
    | some st => st != ""
    | none => false
  if skinTruthy then
    .error (.nameError "name \x27SKIN_TYPES\x27 is not defined")
  else
    let concTruthy := match concerns with
      | some cs => !cs.isEmpty
      | none => false
    match concerns with
    | some cs =>
      if concTruthy then
        let s2 := s.update_profile none (some cs)
        .ok (.obj [
          ("success", .bool true),
          ("message", .str ("Profile updated: concerns: " ++ String.intercalate ", " cs)),
          ("currentProfile", .obj [
            ("skinType", optStr s2.user_profile.skin_type),
            ("concerns", .arr (s2.user_profile.concerns.map .str))])], s2)
      else
        .ok (.obj [("success", .bool false),
                   ("message", .str "No profile updates provided.")], s)
    | none =>
        .ok (.obj [("success", .bool false),
                   ("message", .str "No profile updates provided.")], s)

/-- functions.py `getUserProfile`. -/
def getUserProfile (s : Session) (_db : DB) : Except PyErr JVal :=
  let skinFalsy := match s.user_profile.skin_type with
    | none => true
    | some st => st == ""
  if skinFalsy && s.user_profile.concerns.isEmpty then
    .ok (.obj [("profileSet", .bool false),
               ("message", .str "No profile saved yet.")])
  else
    .ok (.obj [("profileSet", .bool true),
               ("skinType", optStr s.user_profile.skin_type),
               ("concerns", .arr (s.user_profile.concerns.map .str))])

/-- functions.py `getProductDetail`: lookup by integer product id. -/
def getProductDetail (_s : Session) (db : DB) (productId : Int) : Except PyErr JVal :=
  match db.products.find? (fun p => p.id = productId) with
  | none =>
      .ok (.obj [("found", .bool false),
                 ("message", .str ("Product with ID " ++ toString productId ++ " not found."))])
  | some p =>
      .ok (.obj [("found", .bool true), ("product", .obj [
        ("productId", .int p.id), ("sku", .str p.sku), ("name", .str p.name),
        ("brand", .str p.brand), ("category", .str p.category),
        ("price", .float p.price), ("stock", .int p.stock),
        ("volume", .str p.volume), ("description", .str p.description),
        ("ingredients", .str p.ingredients), ("skinTypes", .str p.skin_types),
        ("concerns", .str p.concerns), ("imageFilename", .str p.image_filename)])])

/-- functions.py `getProductDetailsBySKU`: `Product.sku.ilike(f"%{sku}%")`,
first match. -/
def getProductDetailsBySKU (_s : Session) (db : DB) (sku : String) : Except PyErr JVal :=
  match db.products.find? (fun p => containsCI p.sku sku) with
  | none =>
      .ok (.obj [("found", .bool false),
                 ("message", .str ("Product with SKU \x27" ++ sku ++ "\x27 not found."))])
  | some p =>
      .ok (.obj [("found", .bool true), ("product", .obj [
        ("productId", .int p.id), ("sku", .str p.sku), ("name", .str p.name),
        ("brand", .str p.brand), ("category", .str p.category),
        ("price", .float p.price), ("stock", .int p.stock),
        ("volume", .str p.volume), ("description", .str p.description),
        ("ingredients", .str p.ingredients), ("skinTypes", .str p.skin_types),
        ("concerns", .str p.concerns)])])

/-- functions.py `getCartState` (lines 570-594).  An empty cart returns the
`empty` object; a non-empty cart builds per-line dicts reading `item.sku`
(line 586), but `CartItem` (session.py line 21) has no `sku` field, so the
first line raises `AttributeError`. -/
def getCartState (s : Session) (_db : DB) : Except PyErr JVal :=
  let items := s.get_cart_items
  if items.isEmpty then
    .ok (.obj [("empty", .bool true), ("message", .str "Your cart is empty.")])
  else
    .error (.attributeError "\x27CartItem\x27 object has no attribute \x27sku\x27")

/-- functions.py `addToCart` (lines 597-630).  After the catalog and stock
checks succeed, line 618 calls
`session.add_to_cart(sku=product.sku, quantity=.., name=.., price=..)`,
but `Session.add_to_cart` (session.py line 74) declares its first parameter
as `product_id` — there is no parameter named `sku`, so the call raises
`TypeError` before any mutation; the success object at lines 625-630 is
unreachable. -/
def addToCart (s : Session) (db : DB) (sku : String) (quantity : Int := 1) :
    Except PyErr (JVal × Session) :=
  match db.products.find? (fun p => p.sku = sku) with
  | none =>
      .ok (.obj [("success", .bool false),
                 ("message", .str ("Product with sku " ++ sku ++ " not found."))], s)
  | some product =>
      if product.stock < quantity then
        .ok (.obj [("success", .bool false),
                   ("message", .str ("Only " ++ toString product.stock ++ " units of "
                     ++ product.name ++ " available in stock."))], s)
      else
        .error (.typeError "add_to_cart() got an unexpected keyword argument \x27sku\x27")

/-- functions.py `removeFromCart` (lines 633-649): the membership test
`sku not in session.cart` probes the cart dict with the string SKU. -/
def removeFromCart (s : Session) (_db : DB) (sku : String) :
    Except PyErr (JVal × Session) :=
  if ¬ cartHas s.cart (.strK sku) then
    .ok (.obj [("success", .bool false),
               ("message", .str "That product is not in your cart.")], s)
  else
    match cartGet s.cart (.strK sku) with
    | none =>
        .error (.keyError sku)
    | some item =>
        let s2 := s.remove_from_cart (.strK sku)
        .ok (.obj [("success", .bool true),
                   ("message", .str ("Removed " ++ item.name ++ " from your cart.")),
                   ("cartItemCount", .int s2.get_cart_items.length),
                   ("cartTotal", .float s2.get_cart_total)], s2)

/-- functions.py `updateCartItem` (lines 652-682): quantity 0 delegates to
`removeFromCart`; otherwise check catalog stock then overwrite the quantity
through `session.update_cart_item(sku, quantity)` (positional call, so the
string SKU lands in the `product_id` parameter). -/
def updateCartItem (s : Session) (db : DB) (sku : String) (quantity : Int) :
    Except PyErr (JVal × Session) :=
  if ¬ cartHas s.cart (.strK sku) then
    .ok (.obj [("success", .bool false),
               ("message", .str "That product is not in your cart.")], s)
  else if quantity = 0 then
    removeFromCart s db sku
  else
    let product? := db.products.find? (fun p => p.sku = sku)
    match product? with
    | some product =>
      if product.stock < quantity then
        .ok (.obj [("success", .bool false),
                   ("message", .str ("Only " ++ toString product.stock ++ " units available."))], s)
      else
        let s2 := s.update_cart_item (.strK sku) quantity
        .ok (.obj [("success", .bool true),
                   ("message", .str ("Updated quantity to " ++ toString quantity ++ ".")),
                   ("cartItemCount", .int s2.get_cart_items.length),
                   ("cartTotal", .float s2.get_cart_total)], s2)
    | none =>
        let s2 := s.update_cart_item (.strK sku) quantity
        .ok (.obj [("success", .bool true),
                   ("message", .str ("Updated quantity to " ++ toString quantity ++ ".")),
                   ("cartItemCount", .int s2.get_cart_items.length),
                   ("cartTotal", .float s2.get_cart_total)], s2)

/-- functions.py `initiateOrder` (lines 689-714): fails on an empty cart,
otherwise returns the reserved `initiate_checkout` signal object with a cart
summary (only `name`/`quantity`/`price` are read, which `CartItem` has). -/
def initiateOrder (s : Session) (_db : DB) : Except PyErr JVal :=
  let items := s.get_cart_items
  if items.isEmpty then
    .ok (.obj [("success", .bool false),
               ("message", .str "Your cart is empty. Add some products before placing an order.")])
  else
    .ok (.obj [
      ("type", .str "initiate_checkout"),
      ("cartSummary", .obj [
        ("itemCount", .int items.length),
        ("total", .float s.get_cart_total),
        ("items", .arr (items.map (fun it => JVal.obj [
          ("name", .str it.name),
          ("quantity", .int it.quantity),
          ("price", .float it.price)])))]),
      ("message", .str "Ready to place your order. I\x27ll need your delivery details.")])

/-- `order.items` relationship: the order items rows belonging to an order. -/
def DB.itemsOf (db : DB) (order_id : String) : List OrderItemRow :=
  db.order_items.filter (fun oi => oi.order_id = order_id)

/-- functions.py `getOrderInfo` item loop: each line reads
`order_item.product.name` through the relationship; a dangling `product_id`
makes `order_item.product` `None` and the attribute access raises. -/
def orderInfoItems (db : DB) : List OrderItemRow → Except PyErr (List JVal)
  | [] => .ok []
  | oi :: rest => do
      match db.products.find? (fun p => p.id = oi.product_id) with
      | none => .error (.attributeError "\x27NoneType\x27 object has no attribute \x27name\x27")
      | some p =>
          let restItems ← orderInfoItems db rest
          .ok (JVal.obj [
            ("productName", .str p.name),
            ("quantity", .int oi.quantity),
            ("price", .float oi.price),
            ("subtotal", .float (oi.price * (oi.quantity : ℚ)))] :: restItems)

/-- Total of the item subtotals computed by `getOrderInfo`. -/
def orderItemsTotal (_db : DB) (items : List OrderItemRow) : ℚ :=
  (items.map (fun oi => oi.price * (oi.quantity : ℚ))).sum

/-- functions.py `getOrderInfo` (lines 770-804): lookup by upper-cased id. -/
def getOrderInfo (_s : Session) (db : DB) (orderId : String) : Except PyErr JVal := do
  match db.orders.find? (fun o => o.id = orderId.toUpper) with
  | none =>
      .ok (.obj [("found", .bool false),
                 ("message", .str ("No order found with ID " ++ orderId ++ "."))])
  | some o =>
      let its := db.itemsOf o.id
      let itemObjs ← orderInfoItems db its
      .ok (.obj [("found", .bool true), ("order", .obj [
        ("orderId", .str o.id),
        ("customerName", .str o.customer_name),
        ("phone", .str o.phone),
        ("address", .str o.address),
        ("status", .str o.status),
        ("createdAt", .str o.created_at),
        ("itemCount", .int itemObjs.length),
        ("total", .float (orderItemsTotal db its)),
        ("items", .arr itemObjs)])])

/-- One formatted line of `printAllProductsByBrand`. -/
def brandCatalogLine (p : Product) : String :=
  "-" ++ p.name ++ ", (" ++ p.category ++ "), (" ++ p.skin_types ++ "), "
    ++ pyFloatRepr p.price ++ " [" ++ p.sku ++ "]"

/-- functions.py `printAllProductsByBrand` (lines 811-863): distinct
non-empty brands in sorted order, each with its products sorted by name
(console printing is a side effect outside the model; the returned dict
carries the same text in `output`). -/
def printAllProductsByBrand (_s : Session) (db : DB) : Except PyErr JVal :=
  let brands := (sortOn strLe ((db.products.filter (fun p => p.brand ≠ "")).map
    (fun p => p.brand))).dedup
  if brands.isEmpty then
    .ok (.obj [("success", .bool true), ("message", .str "No brands found in database.")])
  else
    let output := brands.foldl (fun acc b =>
      let prods := sortOn (fun p q => strLe p.name q.name)
        (db.products.filter (fun p => p.brand = b))
      if prods.isEmpty then acc
      else acc ++ ["\n" ++ b, "---------"] ++ prods.map brandCatalogLine) []
    .ok (.obj [
      ("success", .bool true),
      ("message", .str ("Printed all products from " ++ toString brands.length ++ " brands.")),
      ("brandCount", .int brands.length),
      ("output", .str (String.intercalate "\n" output))])

/-- One formatted line of `findProductsByBrand`. -/
def brandStockLine (p : Product) : String :=
  "-" ++ p.name ++ " [" ++ p.sku ++ "] ("
    ++ (if p.stock > 0 then "In stock" else "Out of stock") ++ ")"

/-- functions.py `findProductsByBrand` (lines 866-927). -/
def findProductsByBrand (_s : Session) (db : DB) (brand : String) : Except PyErr JVal :=
  let prods := sortOn (fun p q => strLe p.name q.name)
    (db.products.filter (fun p => containsCI p.brand brand))
  match prods with
  | [] =>
      .ok (.obj [("found", .bool false),
                 ("message", .str ("No products found for brand \x27" ++ brand ++ "\x27."))])
  | p0 :: _ =>
      let actual := p0.brand
      let output := [actual, "---------"] ++ prods.map brandStockLine
      .ok (.obj [
        ("found", .bool true),
        ("brand", .str actual),
        ("productCount", .int prods.length),
        ("message", .str ("Found " ++ toString prods.length ++ " products for " ++ actual ++ ".")),
        ("products", .arr (prods.map (fun p => JVal.obj [
          ("name", .str p.name), ("sku", .str p.sku), ("price", .float p.price),
          ("stock", .int p.stock),
          ("stockStatus", .str (if p.stock > 0 then "In stock" else "Out of stock")),
          ("category", .str p.category)]))),
        ("output", .str (String.intercalate "\n" output))])

/-- The dict returned by functions.py `finalizeOrder` on its reachable
return paths. -/
structure FinalizeResult where
  success : Bool
  message : String
  orderId : Option String := none
deriving DecidableEq, Repr

/-- functions.py `finalizeOrder` (lines 717-767).  With an empty cart it
reports failure and touches nothing.  With a non-empty cart it constructs
the `Order` row, `db.add`s and `db.flush`es it (uncommitted), then for the
first cart line evaluates `item.sku` (line 746) — but `CartItem`
(session.py line 21) has fields `product_id`/`quantity`/`name`/`price`, no
`sku`, so the loop raises `AttributeError`.  (`OrderItem(product_sku=..)`
would equally fail: models.py line 52 defines `product_id`, not
`product_sku`.)  `db.commit()` at line 751 is never reached, so the
committed store is unchanged and `session.clear_cart()` never runs; the
function performs no stock re-validation and no stock decrement on any
path. -/
def finalizeOrder (s : Session) (db : DB)
    (_customer_name _phone _address : String) :
    Except PyErr (FinalizeResult × Session × DB) :=
  let items := s.get_cart_items
  if items.isEmpty then
    .ok ({ success := false, message := "Cart is empty. Cannot place order." }, s, db)
  else
    .error (.attributeError "\x27CartItem\x27 object has no attribute \x27sku\x27")

/-! ### Tool registry and dispatch (functions.py / chat.py / tools.py) -/

/-- The shape of a registered tool behind the dispatch boundary:
`(session, db, **named_params) -> result`, with Python exceptions in
`Except`.  Tools may mutate the session and (in principle) the store. -/
def ToolFn := List (String × JVal) → Session → DB → Except PyErr (JVal × Session × DB)

/-- Keyword lookup among the parsed JSON arguments of a tool call. -/
def getArg (args : List (String × JVal)) (k : String) : Option JVal :=
  (args.find? (fun a => a.1 = k)).map (fun a => a.2)

/-- Python keyword binding of `**params`: an argument name outside the
declared parameter list raises `TypeError`, as does a missing required
parameter. -/
def checkKwargs (fname : String) (allowed required : List String)
    (args : List (String × JVal)) : Except PyErr Unit :=
  match args.find? (fun a => !(allowed.contains a.1)) with
  | some a =>
      .error (.typeError (fname ++ "() got an unexpected keyword argument \x27" ++ a.1 ++ "\x27"))
  | none =>
    match required.find? (fun k => (getArg args k).isNone) with
    | some k =>
        .error (.typeError (fname ++ "() missing 1 required positional argument: \x27" ++ k ++ "\x27"))
    | none => .ok ()

/-- Read a required string argument.  (Argument values of an unexpected
runtime type are coarsely modelled as a `TypeError` at the first use; no
claim exercises ill-typed argument values.) -/
def argStr (args : List (String × JVal)) (k : String) : Except PyErr String :=
  match getArg args k with
  | some (.str s) => .ok s
  | _ => .error (.typeError ("argument \x27" ++ k ++ "\x27 is not a string"))

/-- Read a required integer argument. -/
def argInt (args : List (String × JVal)) (k : String) : Except PyErr Int :=
  match getArg args k with
  | some (.int n) => .ok n
  | _ => .error (.typeError ("argument \x27" ++ k ++ "\x27 is not an integer"))

/-- Read an optional (possibly `null`) string argument. -/
def argOptStr (args : List (String × JVal)) (k : String) : Except PyErr (Option String) :=
  match getArg args k with
  | none => .ok none
  | some .null => .ok none
  | some (.str s) => .ok (some s)
  | some _ => .error (.typeError ("argument \x27" ++ k ++ "\x27 is not a string"))

/-- Read an optional list-of-strings argument. -/
def argOptStrList (args : List (String × JVal)) (k : String) :
    Except PyErr (Option (List String)) :=
  match getArg args k with
  | none => .ok none
  | some .null => .ok none
  | some (.arr xs) =>
      let rec collect : List JVal → Except PyErr (List String)
        | [] => .ok []
        | .str s :: rest => do
            let tail ← collect rest
            .ok (s :: tail)
        | _ :: _ => .error (.typeError ("argument \x27" ++ k ++ "\x27 has a non-string element"))
      (collect xs).map some
  | some _ => .error (.typeError ("argument \x27" ++ k ++ "\x27 is not a list"))

/-- Registry entry for `getTotalProductsCount`. -/
def bindGetTotalProductsCount : ToolFn := fun args s db => do
  let _ ← checkKwargs "getTotalProductsCount" [] [] args
  let r ← getTotalProductsCount s db
  .ok (r, s, db)

/-- Registry entry for `updateUserProfile`. -/
def bindUpdateUserProfile : ToolFn := fun args s db => do
  let _ ← checkKwargs "updateUserProfile" ["skinType", "concerns"] [] args
  let skinType ← argOptStr args "skinType"
  let concerns ← argOptStrList args "concerns"
  let (r, s2) ← updateUserProfile s db skinType concerns
  .ok (r, s2, db)

/-- Registry entry for `getUserProfile`. -/
def bindGetUserProfile : ToolFn := fun args s db => do
  let _ ← checkKwargs "getUserProfile" [] [] args
  let r ← getUserProfile s db
  .ok (r, s, db)

/-- Registry entry for `getProductDetail`. -/
def bindGetProductDetail : ToolFn := fun args s db => do
  let _ ← checkKwargs "getProductDetail" ["productId"] ["productId"] args
  let pid ← argInt args "productId"
  let r ← getProductDetail s db pid
  .ok (r, s, db)

/-- Registry entry for `getProductDetailsBySKU`. -/
def bindGetProductDetailsBySKU : ToolFn := fun args s db => do
  let _ ← checkKwargs "getProductDetailsBySKU" ["sku"] ["sku"] args
  let sku ← argStr args "sku"
  let r ← getProductDetailsBySKU s db sku
  .ok (r, s, db)

/-- Registry entry for `getCartState`. -/
def bindGetCartState : ToolFn := fun args s db => do
  let _ ← checkKwargs "getCartState" [] [] args
  let r ← getCartState s db
  .ok (r, s, db)

/-- Registry entry for `addToCart` (`quantity` defaults to 1). -/
def bindAddToCart : ToolFn := fun args s db => do
  let _ ← checkKwargs "addToCart" ["sku", "quantity"] ["sku"] args
  let sku ← argStr args "sku"
  let quantity ← match getArg args "quantity" with
    | none => pure (1 : Int)
    | some _ => argInt args "quantity"
  let (r, s2) ← addToCart s db sku quantity
  .ok (r, s2, db)

/-- Registry entry for `removeFromCart`. -/
def bindRemoveFromCart : ToolFn := fun args s db => do
  let _ ← checkKwargs "removeFromCart" ["sku"] ["sku"] args
  let sku ← argStr args "sku"
  let (r, s2) ← removeFromCart s db sku
  .ok (r, s2, db)

/-- Registry entry for `updateCartItem`. -/
def bindUpdateCartItem : ToolFn := fun args s db => do
  let _ ← checkKwargs "updateCartItem" ["sku", "quantity"] ["sku", "quantity"] args
  let sku ← argStr args "sku"
  let quantity ← argInt args "quantity"
  let (r, s2) ← updateCartItem s db sku quantity
  .ok (r, s2, db)

/-- Registry entry for `initiateOrder`. -/
def bindInitiateOrder : ToolFn := fun args s db => do
  let _ ← checkKwargs "initiateOrder" [] [] args
  let r ← initiateOrder s db
  .ok (r, s, db)

/-- Registry entry for `getOrderInfo`. -/
def bindGetOrderInfo : ToolFn := fun args s db => do
  let _ ← checkKwargs "getOrderInfo" ["orderId"] ["orderId"] args
  let orderId ← argStr args "orderId"
  let r ← getOrderInfo s db orderId
  .ok (r, s, db)

/-- Registry entry for `printAllProductsByBrand`. -/
def bindPrintAllProductsByBrand : ToolFn := fun args s db => do
  let _ ← checkKwargs "printAllProductsByBrand" [] [] args
  let r ← printAllProductsByBrand s db
  .ok (r, s, db)

/-- Registry entry for `findProductsByBrand`. -/
def bindFindProductsByBrand : ToolFn := fun args s db => do
  let _ ← checkKwargs "findProductsByBrand" ["brand"] ["brand"] args
  let brand ← argStr args "brand"
  let r ← findProductsByBrand s db brand
  .ok (r, s, db)

/-- functions.py `FUNCTION_REGISTRY` (lines 934-954): the thirteen live
entries, in source order (the commented-out entries are absent). -/
def FUNCTION_REGISTRY : List (String × ToolFn) := [
  ("getTotalProductsCount", bindGetTotalProductsCount),
  ("updateUserProfile", bindUpdateUserProfile),
  ("getUserProfile", bindGetUserProfile),
  ("getProductDetail", bindGetProductDetail),
  ("getProductDetailsBySKU", bindGetProductDetailsBySKU),
  ("getCartState", bindGetCartState),
  ("addToCart", bindAddToCart),
  ("removeFromCart", bindRemoveFromCart),
  ("updateCartItem", bindUpdateCartItem),
  ("initiateOrder", bindInitiateOrder),
  ("getOrderInfo", bindGetOrderInfo),
  ("printAllProductsByBrand", bindPrintAllProductsByBrand),
  ("findProductsByBrand", bindFindProductsByBrand)]

/-- The tool names registered in `FUNCTION_REGISTRY`. -/
def FUNCTION_REGISTRY_NAMES : List String := FUNCTION_REGISTRY.map (fun e => e.1)

/-- chat.py `execute_tool_call` (lines 118-142): unknown names and raised
exceptions are converted to structured error objects; an exception leaves
the session and store as the failing tool left them (none of the embedded
tools mutates state before raising). -/
def execute_tool_call (tool_name : String) (tool_params : List (String × JVal))
    (s : Session) (db : DB) : JVal × Session × DB :=
  match FUNCTION_REGISTRY.find? (fun e => e.1 = tool_name) with
  | none => (.obj [("error", .str ("Unknown function: " ++ tool_name))], s, db)
  | some e =>
      match e.2 tool_params s db with
      | .ok r => r
      | .error err =>
          (.obj [("error", .str ("Function " ++ tool_name ++ " failed: " ++ err.text))], s, db)

/-- One model-facing function schema from tools.py (only the name and the
`required` parameter list are semantically relevant; descriptions and
property types are prompt text). -/
structure ToolSchema where
  name : String
  required : List String
deriving DecidableEq, Repr

/-- tools.py `TOOLS` (lines 5-415): the eight schemas that are not
commented out, in source order. -/
def TOOLS : List ToolSchema := [
  { name := "getProductDetailsBySKU", required := ["sku"] },
  { name := "updateUserProfile", required := [] },
  { name := "getCartState", required := [] },
  { name := "addToCart", required := ["sku"] },
  { name := "removeFromCart", required := ["sku"] },
  { name := "updateCartItem", required := ["sku", "quantity"] },
  { name := "initiateOrder", required := [] },
  { name := "getOrderInfo", required := ["orderId"] }]

/-- The schema names supplied to the model. -/
def TOOLS_NAMES : List String := TOOLS.map (fun t => t.name)

/-! ### Checkout sub-protocol (chat.py, main.py) -/

/-- Python `\s` on ASCII inputs. -/
def isPySpace (c : Char) : Bool :=
  c = ' ' || c = '\t' || c = '\n' || c = '\r' || c = '\x0b' || c = '\x0c'

/-- Elements of the fixed pattern
`name:\s*(.+?),\s*phone:\s*(.+?),\s*address:\s*(.+)` used by
chat.py `parse_customer_info` with `re.IGNORECASE`. -/
inductive RElem where
  | litCI (s : String)
  | wsStar
  | dotPlusLazy
  | dotPlusGreedy

/-- Case-insensitive literal consumption (the stored literal is lower-case). -/
def dropLitCI : List Char → List Char → Option (List Char)
  | [], cs => some cs
  | _ :: _, [] => none
  | p :: ps, c :: cs => if c.toLower = p then dropLitCI ps cs else none

/-- First defined value, in the order the regex engine would try them. -/
def firstSome : List (Option α) → Option α
  | [] => none
  | some x :: _ => some x
  | none :: t => firstSome t

/-- Length of the longest run satisfying `p` at the head of the input. -/
def countLeading (p : Char → Bool) : List Char → Nat
  | [] => 0
  | c :: t => if p c then countLeading p t + 1 else 0

/-- Backtracking matcher for the fixed pattern, reproducing the engine
priorities: greedy `\s*` tries the longest run first, lazy `(.+?)` the
shortest capture first, greedy `(.+)` the longest capture first, and `.`
never matches a newline.  Captures are accumulated in reverse. -/
def reMatchAux : List RElem → List Char → List (List Char) → Option (List (List Char))
  | [], _, caps => some caps.reverse
  | .litCI p :: rest, cs, caps =>
      match dropLitCI p.toList cs with
      | some cs2 => reMatchAux rest cs2 caps
      | none => none
  | .wsStar :: rest, cs, caps =>
      let m := countLeading isPySpace cs
      firstSome (((List.range (m + 1)).reverse).map (fun k => reMatchAux rest (cs.drop k) caps))
  | .dotPlusLazy :: rest, cs, caps =>
      let m := countLeading (fun c => c != '\n') cs
      firstSome ((List.range' 1 m).map (fun k =>
        reMatchAux rest (cs.drop k) ((cs.take k) :: caps)))
  | .dotPlusGreedy :: rest, cs, caps =>
      let m := countLeading (fun c => c != '\n') cs
      firstSome (((List.range' 1 m).reverse).map (fun k =>
        reMatchAux rest (cs.drop k) ((cs.take k) :: caps)))

/-- The labeled-shape pattern of `parse_customer_info` (chat.py line 327). -/
def labeledShape : List RElem := [
  .litCI "name:", .wsStar, .dotPlusLazy, .litCI ",",
  .wsStar, .litCI "phone:", .wsStar, .dotPlusLazy, .litCI ",",
  .wsStar, .litCI "address:", .wsStar, .dotPlusGreedy]

/-- `re.search`: try every start position, leftmost first. -/
def reSearch (pat : List RElem) (cs : List Char) : Option (List (List Char)) :=
  firstSome ((List.range (cs.length + 1)).map (fun i => reMatchAux pat (cs.drop i) []))

/-- Python `str.strip()`. -/
def pyStrip (s : String) : String :=
  String.mk (((s.toList.dropWhile isPySpace).reverse.dropWhile isPySpace).reverse)

/-- The dict returned by `parse_customer_info` on success. -/
structure CustomerInfo where
  name : String
  phone : String
  address : String
deriving DecidableEq, Repr

/-- chat.py `parse_customer_info` (lines 312-345): the labeled shape first
(groups stripped), otherwise comma-splitting with at least 3 parts (first =
name, second = phone, the stripped remainder re-joined with ", " = address).
There is no phone validation of any kind in this revision. -/
def parse_customer_info (message : String) : Option CustomerInfo :=
  match reSearch labeledShape message.toList with
  | some [g1, g2, g3] =>
      some { name := pyStrip (String.mk g1)
             phone := pyStrip (String.mk g2)
             address := pyStrip (String.mk g3) }
  | _ =>
      let parts := (message.split (fun c => c = ',')).map pyStrip
      if parts.length ≥ 3 then
        some { name := parts.getD 0 ""
               phone := parts.getD 1 ""
               address := String.intercalate ", " (parts.drop 2) }
      else none

/-- Events sent over the websocket: `send_text` payloads and `send_json`
records (the latter shown as their `type` plus `content` text). -/
inductive OutEvent where
  | text (s : String)
  | jsonMsg (typ : String) (content : String)
deriving DecidableEq, Repr

/-- One `  • {quantity}x {name} - ${price:.2f}` line of the checkout cart
summary (chat.py line 287); missing keys raise. -/
def itemSummaryLine (v : JVal) : Except PyErr String :=
  match v.getField "quantity", v.getField "name", v.getField "price" with
  | some (.int q), some (.str n), some (.float p) =>
      .ok ("  • " ++ toString q ++ "x " ++ n ++ " - $" ++ fmt2 p ++ "\n")
  | _, _, _ => .error (.keyError "cart summary item")

/-- All item lines, concatenated in order. -/
def itemSummaryLines : List JVal → Except PyErr String
  | [] => .ok ""
  | v :: rest => do
      let l ← itemSummaryLine v
      let ls ← itemSummaryLines rest
      .ok (l ++ ls)

/-- chat.py `handle_checkout_flow` (lines 265-305): send the cart summary
plus the request for name/phone/address, then set `awaiting_checkout`. -/
def handle_checkout_flow (cart_summary : JVal) (s : Session) :
    Except PyErr (List OutEvent × Session) := do
  match cart_summary.getField "cartSummary" with
  | none => .error (.keyError "cartSummary")
  | some summ =>
    match summ.getField "items", summ.getField "total" with
    | some (.arr items), some (.float total) => do
        let lines ← itemSummaryLines items
        let msg := "Great! Here\x27s what you\x27re ordering:\n\n" ++ lines
          ++ "\n**Total: $" ++ fmt2 total ++ "**\n\n"
          ++ "To complete your order, please provide:\n"
          ++ "1. Your full name\n"
          ++ "2. Phone number\n"
          ++ "3. Delivery address\n\n"
          ++ "You can send them in one message like:\n"
          ++ "`Name: John Doe, Phone: 09123456789, Address: 123 Main St`"
        .ok ([.jsonMsg "message" msg], { s with awaiting_checkout := true })
    | _, _ => .error (.keyError "items")

/-- chat.py `complete_checkout` (lines 352-393): call `finalizeOrder`, send
a confirmation or failure message, clear `awaiting_checkout`.  The clearing
happens after every *returning* `finalizeOrder` call, success or failure; a
raised exception skips it.  (The Python function returns `None`.) -/
def complete_checkout (info : CustomerInfo) (s : Session) (db : DB) :
    Except PyErr (List OutEvent × Session × DB) := do
  let (result, s1, db1) ← finalizeOrder s db info.name info.phone info.address
  let confirmation :=
    if result.success then
      -- unreachable in this revision: finalizeOrder raises before returning
      -- a success dict (see `finalizeOrder`); text kept for fidelity
      "✅ **Order Confirmed!**\n\nOrder ID: **" ++ result.orderId.getD "" ++ "**\n"
        ++ "Customer: " ++ info.name ++ "\nPhone: " ++ info.phone
        ++ "\nAddress: " ++ info.address ++ "\n"
    else
      "❌ Order failed: " ++ result.message
  .ok ([.jsonMsg "message" confirmation], { s1 with awaiting_checkout := false }, db1)

/-- main.py websocket checkout branch re-prompt text (lines 159-165). -/
def invalidFormatText : String :=
  "❌ Invalid format. Please check:\n"
    ++ "• Name: Your full name\n"
    ++ "• Phone: Must start with 09 and have exactly 11 digits (e.g., 09123456789)\n"
    ++ "• Address: Your delivery address\n\n"
    ++ "Example: Name: John Doe, Phone: 09123456789, Address: 123 Main St"

/-- Result of one inbound message handled while `awaiting_checkout` is set. -/
structure CheckoutTurnResult where
  events : List OutEvent
  session : Session
  db : DB
deriving DecidableEq, Repr

/-- Tail of the valid-info branch: send the end sentinel and record both
turns (the assistant entry stores the `None` that `complete_checkout`
returned); a summarization crash is answered with the generic checkout
error (main.py lines 171-176). -/
def checkoutOkTail (evs : List OutEvent) (s1 : Session) (db1 : DB)
    (user_message : String) : CheckoutTurnResult :=
  match addHistoryTwo s1 "user" (some user_message) "assistant" none with
  | (s2, none) => { events := evs ++ [.text "__END__"], session := s2, db := db1 }
  | (s2, some _) =>
      { events := evs ++ [.text "__END__",
          .text "Error processing checkout. Please try again.", .text "__END__"],
        session := s2, db := db1 }

/-- The valid-info branch of the checkout turn. -/
def checkoutTurnParsed (info : CustomerInfo) (s : Session) (db : DB)
    (user_message : String) : CheckoutTurnResult :=
  match complete_checkout info s db with
  | .ok (evs, s1, db1) => checkoutOkTail evs s1 db1 user_message
  | .error _ =>
      { events := [.text "Error processing checkout. Please try again.", .text "__END__"],
        session := s, db := db }

/-- The parse-failure branch: send the format re-prompt and record both
turns; `awaiting_checkout` is left as it was. -/
def checkoutReprompt (s : Session) (db : DB) (user_message : String) :
    CheckoutTurnResult :=
  match addHistoryTwo s "user" (some user_message) "assistant" (some invalidFormatText) with
  | (s2, none) =>
      { events := [.text invalidFormatText, .text "__END__"], session := s2, db := db }
  | (s2, some _) =>
      { events := [.text invalidFormatText, .text "__END__",
          .text "Error processing checkout. Please try again.", .text "__END__"],
        session := s2, db := db }

/-- main.py `websocket_chat` checkout branch (lines 142-177): parse the raw
message; on success run `complete_checkout`, send the end sentinel and
record both turns (the assistant entry stores the `None` returned by
`complete_checkout`); on parse failure send the format re-prompt and record
both turns, leaving `awaiting_checkout` set.  Any exception is caught and
answered with a generic checkout error. -/
def checkoutTurn (s : Session) (db : DB) (user_message : String) : CheckoutTurnResult :=
  match parse_customer_info user_message with
  | some info => checkoutTurnParsed info s db user_message
  | none => checkoutReprompt s db user_message

/-! ### Admin status update (main.py lines 760-785) -/

/-- A FastAPI failure: an `HTTPException` or an uncaught Python exception
(which FastAPI surfaces as a 500). -/
inductive HttpFail where
  | http (code : Nat) (detail : String)
  | pyExc (e : PyErr)
deriving DecidableEq, Repr

/-- The status vocabulary of `update_order_status`. -/
def valid_statuses : List String :=
  ["pending", "confirmed", "shipped", "delivered", "rejected"]

/-- main.py `update_order_status` (lines 760-785): reject invalid statuses
and unknown orders; refuse any transition out of `rejected`; on a
transition *to* `rejected` loop over the order items to restore stock —
but the loop body reads `item.product_sku` (line 778) while models.py
`OrderItem` (line 52) defines `product_id`, so with at least one item the
request raises `AttributeError` before `db.commit()`; with no items the
loop is empty and the status update commits.  Every other transition sets
the status and commits without touching stock. -/
def update_order_status (db : DB) (order_id : String) (status : String) :
    Except HttpFail (DB × String) :=
  if ¬ valid_statuses.contains status then
    .error (.http 400 "Invalid status")
  else
    match db.orders.find? (fun o => o.id = order_id) with
    | none => .error (.http 404 "Order not found")
    | some order =>
      if order.status = "rejected" then
        .error (.http 400 "Order is already rejected.")
      else
        let commit : DB × String :=
          ({ db with orders := db.orders.map (fun o =>
              if o.id = order_id then { o with status := status } else o) },
            status)
        if status = "rejected" then
          match db.itemsOf order.id with
          | [] => .ok commit
          | _ :: _ =>
              .error (.pyExc (.attributeError
                "\x27OrderItem\x27 object has no attribute \x27product_sku\x27"))
        else .ok commit

/-! ### Agentic loop orchestrator (main.py `handle_message_with_streaming`,
lines 241-349, driven with an already-built message array: the context
renderer that builds it is a collaborator outside this component) -/

/-- One structured tool call in a model reply (`function.arguments` already
parsed from its JSON string). -/
structure ToolCall where
  id : String
  name : String
  args : List (String × JVal)

/-- One entry of the model-facing message array.  A tool result message
carries the structured result (its `json.dumps` serialization is not
modelled; message content never influences control flow, since the gateway
is an oracle). -/
inductive Msg where
  | system (content : String)
  | user (content : String)
  | assistant (content : String) (tool_calls : List ToolCall)
  | tool (name : String) (tool_call_id : String) (content : JVal)

/-- One Model Gateway response: a non-200 HTTP status, or the assistant
message of `choices[0]` with its (possibly empty) `tool_calls`. -/
inductive GwResp where
  | httpError (code : Nat)
  | reply (content : String) (tool_calls : List ToolCall)

/-- How a turn through the orchestrator ended. -/
inductive HaltKind where
  | gatewayError
  | streamed
  | checkout
  | crashed
  | tooLong
deriving DecidableEq, Repr

/-- The observable outcome of one turn: websocket events, final state, the
accumulated message array, the number of Model Gateway calls, the dispatch
trace of executed tool calls, whether any tool result carried the
checkout-signal discriminator, and the halt kind. -/
structure LoopResult where
  events : List OutEvent
  session : Session
  db : DB
  messages : List Msg
  modelCalls : Nat
  executed : List String
  sawSignal : Bool
  halt : HaltKind

/-- Slice a non-empty list into 150-character chunks (fuel-driven). -/
def chunkGo : Nat → List Char → List (List Char)
  | _, [] => []
  | 0, _ => []
  | Nat.succ f, l => l.take 150 :: chunkGo f (l.drop 150)

/-- main.py lines 291-298: the final answer is streamed in 150-character
chunks. -/
def chunks150 (s : String) : List String :=
  (chunkGo s.length s.toList).map String.mk

/-- main.py line 348 — the runaway-loop abort message. -/
def tooLongText : String := "Processing took too long. Please try again."

/-- main.py line 274 — the gateway-error message (`{response}` interpolates
the repr of the response object). -/
def apiErrText (code : Nat) : String :=
  "Error: API returned <Response [" ++ toString code ++ "]>. Try again..."

/-- Outcome of executing one batch of tool calls sequentially
(main.py lines 315-343). -/
inductive BatchRes where
  | cont (s : Session) (db : DB) (messages : List Msg) (executed : List String)
  | signal (events : List OutEvent) (s : Session) (db : DB)
      (messages : List Msg) (executed : List String)
  | failed (e : PyErr) (s : Session) (db : DB)
      (messages : List Msg) (executed : List String)

/-- Execute the calls of one model reply in order.  A result carrying the
`initiate_checkout` discriminator immediately hands control to
`handle_checkout_flow` — the remaining queued calls are never dispatched;
otherwise the result is appended to the message array keyed by call id and
execution continues. -/
def processToolCalls : List ToolCall → Session → DB → List Msg → List String → BatchRes
  | [], s, db, msgs, ex => .cont s db msgs ex
  | c :: rest, s, db, msgs, ex =>
      let r := execute_tool_call c.name c.args s db
      let ex1 := ex ++ [c.name]
      if r.1.isCheckoutSignal then
        match handle_checkout_flow r.1 r.2.1 with
        | .ok (evs, s2) => .signal evs s2 r.2.2 msgs ex1
        | .error e => .failed e r.2.1 r.2.2 msgs ex1
      else
        processToolCalls rest r.2.1 r.2.2 (msgs ++ [.tool c.name c.id r.1]) ex1

/-- Tail of the zero-tool-calls branch (main.py lines 285-312): stream the
final text in 150-character chunks, send the end sentinel, then record both
turns in bounded history (a summarization crash is answered by the
websocket handler with a generic error). -/
def streamTail (content um : String) (s : Session) (db : DB) (msgs1 : List Msg)
    (mc : Nat) (ex : List String) : LoopResult :=
  match addHistoryTwo s "user" (some um) "assistant" (some content) with
  | (s2, none) =>
      { events := (chunks150 content).map OutEvent.text ++ [.text "__END__"],
        session := s2, db := db, messages := msgs1, modelCalls := mc,
        executed := ex, sawSignal := false, halt := .streamed }
  | (s2, some e) =>
      { events := (chunks150 content).map OutEvent.text ++ [.text "__END__",
          .text ("Error processing message: " ++ e.text), .text "__END__"],
        session := s2, db := db, messages := msgs1, modelCalls := mc,
        executed := ex, sawSignal := false, halt := .crashed }

/-- Tail of the checkout-signal branch (main.py lines 326-335): the checkout
prompt was already sent by `handle_checkout_flow`; send the end sentinel and
append the user turn plus the synthetic "Starting checkout process..."
assistant entry, then terminate the turn. -/
def signalTail (um : String) (evs : List OutEvent) (s1 : Session) (db1 : DB)
    (msgs2 : List Msg) (mc : Nat) (ex1 : List String) : LoopResult :=
  match addHistoryTwo s1 "user" (some um) "assistant" (some "Starting checkout process...") with
  | (s2, none) =>
      { events := evs ++ [.text "__END__"], session := s2, db := db1,
        messages := msgs2, modelCalls := mc, executed := ex1,
        sawSignal := true, halt := .checkout }
  | (s2, some e) =>
      { events := evs ++ [.text "__END__",
          .text ("Error processing message: " ++ e.text), .text "__END__"],
        session := s2, db := db1, messages := msgs2, modelCalls := mc,
        executed := ex1, sawSignal := true, halt := .crashed }

/-- The agentic loop of main.py `handle_message_with_streaming`
(lines 241-349), with the remaining iteration budget as fuel and the
gateway as an oracle indexed by the number of calls made so far.  An
exception escaping the loop is answered by the websocket handler
(main.py lines 189-197) with a generic error — folded into the result as
halt kind `crashed`. -/
def runLoopAux (gw : Nat → GwResp) (user_message : String) :
    Nat → Session → DB → List Msg → Nat → List String → LoopResult
  | 0, s, db, msgs, mc, ex =>
      { events := [.text tooLongText, .text "__END__"], session := s, db := db,
        messages := msgs, modelCalls := mc, executed := ex,
        sawSignal := false, halt := .tooLong }
  | Nat.succ fuel, s, db, msgs, mc, ex =>
      match gw mc with
      | .httpError code =>
          { events := [.text (apiErrText code), .text "__END__"], session := s,
            db := db, messages := msgs, modelCalls := mc + 1, executed := ex,
            sawSignal := false, halt := .gatewayError }
      | .reply content tcs =>
          if tcs.isEmpty then
            streamTail content user_message s db (msgs ++ [.assistant content tcs])
              (mc + 1) ex
          else
            match processToolCalls tcs s db (msgs ++ [.assistant content tcs]) ex with
            | .cont s1 db1 msgs2 ex1 =>
                runLoopAux gw user_message fuel s1 db1 msgs2 (mc + 1) ex1
            | .signal evs s1 db1 msgs2 ex1 =>
                signalTail user_message evs s1 db1 msgs2 (mc + 1) ex1
            | .failed e s1 db1 msgs2 ex1 =>
                { events := [.text ("Error processing message: " ++ e.text),
                    .text "__END__"],
                  session := s1, db := db1, messages := msgs2, modelCalls := mc + 1,
                  executed := ex1, sawSignal := true, halt := .crashed }

/-- main.py `handle_message_with_streaming` from line 241 on: the iteration
ceiling is `max_iterations = 20`; the loop body runs once per iteration and
makes exactly one gateway call. -/
def handle_message_with_streaming (gw : Nat → GwResp) (user_message : String)
    (s : Session) (db : DB) (messages0 : List Msg) : LoopResult :=
  runLoopAux gw user_message 20 s db messages0 0 []

/-! ### Concrete fixtures used by witnesses and counterexamples -/

/-- A catalog product with ample stock. -/
def prodS1 : Product := { id := 1, sku := "S1", name := "Prod", price := 100, stock := 5 }

/-- A one-product catalog. -/
def dbS1 : DB := { products := [prodS1] }

/-- A fresh session. -/
def sessEmpty : Session := Session.create "c"

/-- A fresh session awaiting checkout info. -/
def sessAwaitEmpty : Session := { sessEmpty with awaiting_checkout := true }

/-- A cart line for `prodS1`, quantity 2, price snapshotted at 100. -/
def cartLine1 : CartItem := { product_id := 1, quantity := 2, name := "Prod", price := 100 }

/-- A session holding one cart line. -/
def sessCart : Session := { sessEmpty with cart := [(.intK 1, cartLine1)] }

/-- The same session, awaiting checkout info. -/
def sessCartAwait : Session := { sessCart with awaiting_checkout := true }

/-- A pending order with id `ABCD1234`. -/
def ordPending : OrderRow :=
  { id := "ABCD1234", customer_name := "N", phone := "091", address := "A", status := "pending" }

/-- A store with `prodS1`, the pending order and its single line item. -/
def dbOrder : DB := {
  products := [prodS1]
  orders := [ordPending]
  order_items := [{ id := 1, order_id := "ABCD1234", product_id := 1, quantity := 2, price := 100 }] }

/-- The same store with the order already rejected. -/
def dbOrderRejected : DB := {
  products := [prodS1]
  orders := [{ ordPending with status := "rejected" }]
  order_items := [{ id := 1, order_id := "ABCD1234", product_id := 1, quantity := 2, price := 100 }] }

/-! ### Claim C1 -/

/-- Claim C1 (code bug): for every product present in the catalog with
stock at least the requested quantity, the `addToCart` tool does NOT return
a success confirmation and does NOT mutate the cart: after its own
validation succeeds, the call into `Session.add_to_cart` uses the keyword
`sku` which the session method does not declare, so the tool raises
`TypeError` and the dispatch boundary converts it into an error object,
leaving the session and store untouched.  The success object and cart
mutation promised by the claim are unreachable. -/
theorem claim_c1_addToCart_dispatch_errors
    (s : Session) (db : DB) (sku : String) (quantity : Int) (p : Product)
    (hfind : db.products.find? (fun q => q.sku = sku) = some p)
    (hstock : quantity ≤ p.stock) :
    execute_tool_call "addToCart" [("sku", .str sku), ("quantity", .int quantity)] s db
      = (.obj [("error", .str
          "Function addToCart failed: add_to_cart() got an unexpected keyword argument \x27sku\x27")],
         s, db) := by
  have hlt : ¬ p.stock < quantity := not_lt.mpr hstock
  have ha : addToCart s db sku quantity
      = .error (.typeError "add_to_cart() got an unexpected keyword argument \x27sku\x27") := by
    unfold addToCart
    rw [hfind]
    exact if_neg hlt
  have hb : bindAddToCart [("sku", .str sku), ("quantity", .int quantity)] s db
      = .error (.typeError "add_to_cart() got an unexpected keyword argument \x27sku\x27") := by
    have hstep : bindAddToCart [("sku", .str sku), ("quantity", .int quantity)] s db
        = (addToCart s db sku quantity).bind (fun rs => .ok (rs.1, rs.2, db)) := rfl
    rw [hstep, ha]
    rfl
  calc execute_tool_call "addToCart" [("sku", .str sku), ("quantity", .int quantity)] s db
      = (match bindAddToCart [("sku", .str sku), ("quantity", .int quantity)] s db with
         | .ok r => r
         | .error err =>
             (.obj [("error", .str ("Function addToCart failed: " ++ err.text))], s, db)) := rfl
    _ = (.obj [("error", .str
          "Function addToCart failed: add_to_cart() got an unexpected keyword argument \x27sku\x27")],
         s, db) := by
        rw [hb]
        rfl

/-- Witness for C1 at a concrete catalog and request. -/
theorem claim_c1_witness :
    dbS1.products.find? (fun q => q.sku = "S1") = some prodS1 ∧ (1 : Int) ≤ prodS1.stock ∧
    execute_tool_call "addToCart" [("sku", .str "S1"), ("quantity", .int 1)] sessEmpty dbS1
      = (.obj [("error", .str
          "Function addToCart failed: add_to_cart() got an unexpected keyword argument \x27sku\x27")],
         sessEmpty, dbS1) :=
  ⟨rfl, by decide,
   claim_c1_addToCart_dispatch_errors sessEmpty dbS1 "S1" 1 prodS1 rfl (by decide)⟩

/-! ### Claim C3 -/

/-- Claim C3 (code bug): a phone value that is not an 11-digit string
starting with `09` is NOT treated as a parse failure.
`parse_customer_info` performs no phone validation at all, so the 10-digit
phone of the spec example parses successfully; the checkout branch then
calls `finalizeOrder` (the resulting events are the order-failure message,
not the format re-prompt) and `complete_checkout` clears
`awaiting_checkout` — the re-prompt message of main.py, which itself states
the `09`/11-digit requirement, is never triggered by a bad phone. -/
theorem claim_c3_phone_not_validated :
    parse_customer_info "Name: A, Phone: 0912345678, Address: X"
      = some { name := "A", phone := "0912345678", address := "X" } ∧
    (checkoutTurn sessAwaitEmpty dbS1 "Name: A, Phone: 0912345678, Address: X").events
      = [.jsonMsg "message" "❌ Order failed: Cart is empty. Cannot place order.",
         .text "__END__"] ∧
    (checkoutTurn sessAwaitEmpty dbS1 "Name: A, Phone: 0912345678, Address: X").session.awaiting_checkout
      = false := by
  refine ⟨by decide, by decide, by decide⟩

/-! ### Claim C4 -/

/-- Claim C4 (code bug): transitioning an order with at least one line item
to `rejected` does not restore stock — it raises `AttributeError` (500),
because main.py reads `item.product_sku` while models.py `OrderItem`
defines `product_id`; status and stock stay unchanged.  The other two parts
of the claim do hold: an already-`rejected` order is refused with a 400 and
no stock change, and a non-`rejected` transition commits the new status
without touching any product row. -/
theorem claim_c4_reject_restore_crashes :
    update_order_status dbOrder "ABCD1234" "rejected"
      = .error (.pyExc (.attributeError
          "\x27OrderItem\x27 object has no attribute \x27product_sku\x27")) ∧
    update_order_status dbOrderRejected "ABCD1234" "confirmed"
      = .error (.http 400 "Order is already rejected.") ∧
    update_order_status dbOrder "ABCD1234" "confirmed"
      = .ok ({ dbOrder with orders := [{ ordPending with status := "confirmed" }] },
             "confirmed") := by
  refine ⟨rfl, rfl, rfl⟩

/-! ### Claim C6 -/

/-- The claim as stated: a one-to-one correspondence between registry names
and schema names. -/
def c6Claim : Prop :=
  (∀ n ∈ FUNCTION_REGISTRY_NAMES, TOOLS_NAMES.count n = 1) ∧
  (∀ n ∈ TOOLS_NAMES, FUNCTION_REGISTRY_NAMES.count n = 1)

/-- Claim C6 counterexample: `getTotalProductsCount` is registered but has
no schema in `TOOLS`, so the correspondence is not one-to-one. -/
theorem claim_c6_counterexample :
    "getTotalProductsCount" ∈ FUNCTION_REGISTRY_NAMES ∧
    TOOLS_NAMES.count "getTotalProductsCount" = 0 ∧
    ¬ c6Claim := by
  refine ⟨by decide, by decide, ?_⟩
  intro h
  have := h.1 "getTotalProductsCount" (by decide)
  revert this
  decide

/-- Claim C6 amended: the correspondence is an injection of `TOOLS` into the
registry, not a bijection — every schema name has exactly one registry
entry and neither list has duplicates, but five registry entries
(`getTotalProductsCount`, `getUserProfile`, `getProductDetail`,
`printAllProductsByBrand`, `findProductsByBrand`) have no schema. -/
theorem claim_c6_amended :
    (∀ n ∈ TOOLS_NAMES, FUNCTION_REGISTRY_NAMES.count n = 1) ∧
    TOOLS_NAMES.Nodup ∧ FUNCTION_REGISTRY_NAMES.Nodup ∧
    (∀ n ∈ ["getTotalProductsCount", "getUserProfile", "getProductDetail",
            "printAllProductsByBrand", "findProductsByBrand"],
       n ∈ FUNCTION_REGISTRY_NAMES ∧ n ∉ TOOLS_NAMES) := by
  refine ⟨by decide, by decide, by decide, by decide⟩

/-! ### Claim C5 -/

/-- One call to a Session Store cart mutator, with arbitrary arguments. -/
inductive CartOp where
  | add (product_id : PyKey) (quantity : Int) (name : String) (price : ℚ)
  | remove (product_id : PyKey)
  | update (product_id : PyKey) (quantity : Int)
deriving DecidableEq, Repr

/-- Apply one cart mutator call. -/
def applyCartOp (s : Session) : CartOp → Session
  | .add pid q n p => s.add_to_cart pid q n p
  | .remove pid => s.remove_from_cart pid
  | .update pid q => s.update_cart_item pid q

/-- Apply a call sequence in order. -/
def applyCartOps (s : Session) (ops : List CartOp) : Session :=
  ops.foldl applyCartOp s

/-- The invariant asserted by the claim: every present line has
quantity ≥ 1. -/
def cartQuantitiesPositive (s : Session) : Prop :=
  ∀ kv ∈ s.cart, 1 ≤ kv.2.quantity

instance (s : Session) : Decidable (cartQuantitiesPositive s) := by
  unfold cartQuantitiesPositive; infer_instance

/-- The claim as stated: the invariant after any mutator sequence with
arbitrary integer quantity arguments. -/
def c5Claim : Prop :=
  ∀ ops : List CartOp, cartQuantitiesPositive (applyCartOps (Session.create "c") ops)

/-- Claim C5 counterexample: `add_to_cart` with quantity 0 inserts a line
with quantity 0 — the mutators never validate quantities (validation is the
caller's responsibility), so the invariant fails for arbitrary integers. -/
theorem claim_c5_counterexample : ¬ c5Claim := by
  intro h
  have hline := h [.add (.intK 1) 0 "A" 10]
    ((.intK 1), { product_id := 1, quantity := 0, name := "A", price := 10 })
    (by decide)
  exact absurd hline (by decide)

/-- Quantity arguments under which the mutators do preserve the invariant:
additions of at least 1 and updates of at least 0 (0 removes the line). -/
def CartOpValid : CartOp → Prop
  | .add _ q _ _ => 1 ≤ q
  | .remove _ => True
  | .update _ q => 0 ≤ q

instance (op : CartOp) : Decidable (CartOpValid op) := by
  cases op <;> { unfold CartOpValid; infer_instance }

/-- `add_to_cart` with quantity ≥ 1 preserves the invariant. -/
theorem add_to_cart_preserves_pos (s : Session) (pid : PyKey) (q : Int)
    (n : String) (pr : ℚ) (hs : cartQuantitiesPositive s) (hq : 1 ≤ q) :
    cartQuantitiesPositive (s.add_to_cart pid q n pr) := by
  unfold Session.add_to_cart
  cases h : cartHas s.cart pid
  · simp only [h, Bool.false_eq_true, if_false]
    intro kv hkv
    rcases List.mem_append.mp hkv with hold | hnew
    · exact hs kv hold
    · rcases List.mem_singleton.mp hnew with rfl
      simpa using hq
  · simp only [h, if_true]
    intro kv hkv
    rcases List.mem_map.mp hkv with ⟨kv0, hkv0, rfl⟩
    by_cases hk : kv0.1 = pid
    · simp only [hk, if_pos rfl]
      have := hs kv0 hkv0
      show 1 ≤ kv0.2.quantity + q
      omega
    · simp only [if_neg hk]
      exact hs kv0 hkv0

/-- `remove_from_cart` preserves the invariant. -/
theorem remove_from_cart_preserves_pos (s : Session) (pid : PyKey)
    (hs : cartQuantitiesPositive s) :
    cartQuantitiesPositive (s.remove_from_cart pid) := by
  intro kv hkv
  exact hs kv (List.mem_of_mem_filter hkv)

/-- `update_cart_item` with quantity ≥ 0 preserves the invariant. -/
theorem update_cart_item_preserves_pos (s : Session) (pid : PyKey) (q : Int)
    (hs : cartQuantitiesPositive s) (hq : 0 ≤ q) :
    cartQuantitiesPositive (s.update_cart_item pid q) := by
  unfold Session.update_cart_item
  by_cases h0 : q = 0
  · simp only [h0, if_pos rfl]
    exact remove_from_cart_preserves_pos s pid hs
  · simp only [if_neg h0]
    cases h : cartHas s.cart pid
    · simp only [Bool.false_eq_true, if_false]
      exact hs
    · simp only [if_true]
      intro kv hkv
      rcases List.mem_map.mp hkv with ⟨kv0, hkv0, rfl⟩
      by_cases hk : kv0.1 = pid
      · simp only [hk, if_pos rfl]
        show 1 ≤ q
        omega
      · simp only [if_neg hk]
        exact hs kv0 hkv0

/-- Claim C5 amended: the Session Store mutators never validate their
quantity arguments, so the invariant holds only for sequences in which
every `add_to_cart` passes quantity ≥ 1 and every `update_cart_item`
passes quantity ≥ 0 (0 removes); under those preconditions every line of
the resulting cart has quantity ≥ 1, from any state satisfying the
invariant. -/
theorem claim_c5_amended (ops : List CartOp) (s : Session)
    (hs : cartQuantitiesPositive s) (hops : ∀ op ∈ ops, CartOpValid op) :
    cartQuantitiesPositive (applyCartOps s ops) := by
  induction ops generalizing s with
  | nil => exact hs
  | cons op rest ih =>
      have hop := hops op (List.mem_cons_self op rest)
      have hrest : ∀ o ∈ rest, CartOpValid o := fun o ho =>
        hops o (List.mem_cons_of_mem op ho)
      have hstep : cartQuantitiesPositive (applyCartOp s op) := by
        cases op with
        | add pid q n p => exact add_to_cart_preserves_pos s pid q n p hs hop
        | remove pid => exact remove_from_cart_preserves_pos s pid hs
        | update pid q => exact update_cart_item_preserves_pos s pid q hs hop
      exact ih (applyCartOp s op) hstep hrest

/-- Witness for C5 at a concrete valid call sequence. -/
theorem claim_c5_witness :
    cartQuantitiesPositive (applyCartOps (Session.create "c")
      [.add (.intK 1) 2 "A" 10, .add (.intK 1) 1 "A" 10,
       .update (.intK 1) 4, .remove (.intK 2), .update (.intK 1) 0]) :=
  claim_c5_amended _ _ (by decide) (by decide)


/-! ### Claim C9 -/

/-- Rendering the summary lines cannot fail when every content is a string. -/
theorem summaryLines_ok (l : List HistMsg) (h : ∀ m ∈ l, m.content ≠ none) :
    ∃ ls, summaryLines l = .ok ls := by
  induction l with
  | nil => exact ⟨[], rfl⟩
  | cons m rest ih =>
      cases hc : m.content with
      | none => exact absurd hc (h m (List.mem_cons_self m rest))
      | some c =>
          rcases ih (fun x hx => h x (List.mem_cons_of_mem m hx)) with ⟨ls, hls⟩
          refine ⟨((if m.role = "user" then "User" else "Assistant") ++ ": " ++ c.take 100) :: ls, ?_⟩
          simp [summaryLines, summaryLine, hc, hls, Bind.bind, Except.bind]

/-- `add_to_history` never touches the cart or the checkout flag. -/
theorem add_to_history_fields (s : Session) (role : String) (c : Option String) :
    (s.add_to_history role c).1.cart = s.cart ∧
    (s.add_to_history role c).1.awaiting_checkout = s.awaiting_checkout := by
  unfold Session.add_to_history
  split
  · split <;> exact ⟨rfl, rfl⟩
  · exact ⟨rfl, rfl⟩

/-- Appending a string-content message to a well-formed bounded history
succeeds (no summarization crash), keeps the history well formed, and keeps
its length at most 10. -/
theorem add_to_history_inv (s : Session) (role content : String)
    (hwf : HistWF s) (hlen : s.conversation_history.length ≤ 10) :
    (s.add_to_history role (some content)).2 = none ∧
    HistWF (s.add_to_history role (some content)).1 ∧
    (s.add_to_history role (some content)).1.conversation_history.length ≤ 10 := by
  have hall : ∀ m ∈ s.conversation_history ++ [(⟨role, some content⟩ : HistMsg)],
      m.content ≠ none := by
    intro m hm
    rcases List.mem_append.mp hm with h1 | h2
    · exact hwf m h1
    · rcases List.mem_singleton.mp h2 with rfl
      simp
  unfold Session.add_to_history
  by_cases h : (s.conversation_history ++ [(⟨role, some content⟩ : HistMsg)]).length > 10
  · rcases summaryLines_ok ((s.conversation_history ++ [(⟨role, some content⟩ : HistMsg)]).take 5)
      (fun m hm => hall m (List.take_subset 5 _ hm)) with ⟨ls, hls⟩
    rw [if_pos h, hls]
    refine ⟨rfl, ?_, ?_⟩
    · intro m hm
      exact hall m (List.drop_subset 5 _ hm)
    · show ((s.conversation_history ++ [(⟨role, some content⟩ : HistMsg)]).drop 5).length ≤ 10
      rw [List.length_drop, List.length_append, List.length_singleton]
      omega
  · rw [if_neg h]
    refine ⟨rfl, hall, ?_⟩
    show (s.conversation_history ++ [(⟨role, some content⟩ : HistMsg)]).length ≤ 10
    rw [List.length_append, List.length_singleton] at h ⊢
    omega

/-- Apply `add_to_history` for a list of role/content string pairs. -/
def applyHistory (msgs : List (String × String)) (s : Session) : Session :=
  msgs.foldl (fun t rc => (t.add_to_history rc.1 (some rc.2)).1) s

/-- The invariant propagates through any sequence of string appends. -/
theorem applyHistory_inv (msgs : List (String × String)) (s : Session)
    (hwf : HistWF s) (hlen : s.conversation_history.length ≤ 10) :
    HistWF (applyHistory msgs s) ∧
    (applyHistory msgs s).conversation_history.length ≤ 10 := by
  induction msgs generalizing s with
  | nil => exact ⟨hwf, hlen⟩
  | cons rc rest ih =>
      rcases add_to_history_inv s rc.1 rc.2 hwf hlen with ⟨_, hwf2, hlen2⟩
      exact ih (s.add_to_history rc.1 (some rc.2)).1 hwf2 hlen2

/-- Claim C9 (confirmed): (1) starting from a fresh session, after any
number of `add_to_history` calls with arbitrary role/content strings the
history holds at most 10 entries; (2) when an append makes the history
exceed 10 (it already holds 10 entries), the oldest 5 entries of the
appended list are evicted — the remainder `(history ++ [new]).drop 5`
preserves relative order — and are rendered by `summaryLines` (role-prefixed
lines, content truncated to its first 100 characters) and appended to
`conversation_summary` under an `[Earlier conversation]` header; (3) an
append that stays within 10 entries leaves the summary untouched. -/
theorem claim_c9_history_bound :
    (∀ (cid : String) (msgs : List (String × String)),
       (applyHistory msgs (Session.create cid)).conversation_history.length ≤ 10) ∧
    (∀ (s : Session) (role content : String), HistWF s →
       s.conversation_history.length = 10 →
       ((s.add_to_history role (some content)).1.conversation_history
          = (s.conversation_history ++ [(⟨role, some content⟩ : HistMsg)]).drop 5 ∧
        ∃ ls, summaryLines ((s.conversation_history ++ [(⟨role, some content⟩ : HistMsg)]).take 5)
            = .ok ls ∧
          (s.add_to_history role (some content)).1.conversation_summary
            = some (appendSummary s.conversation_summary (String.intercalate "\n" ls)))) ∧
    (∀ (s : Session) (role content : String),
       s.conversation_history.length < 10 →
       (s.add_to_history role (some content)).1.conversation_history
          = s.conversation_history ++ [(⟨role, some content⟩ : HistMsg)] ∧
       (s.add_to_history role (some content)).1.conversation_summary
          = s.conversation_summary) := by
  refine ⟨?_, ?_, ?_⟩
  · intro cid msgs
    exact (applyHistory_inv msgs (Session.create cid)
      (fun m hm => absurd hm (List.not_mem_nil m)) (by simp [Session.create])).2
  · intro s role content hwf h10
    have hall : ∀ m ∈ (s.conversation_history ++ [(⟨role, some content⟩ : HistMsg)]).take 5,
        m.content ≠ none := by
      intro m hm
      rcases List.mem_append.mp (List.take_subset 5 _ hm) with h1 | h2
      · exact hwf m h1
      · rcases List.mem_singleton.mp h2 with rfl
        simp
    rcases summaryLines_ok _ hall with ⟨ls, hls⟩
    have hgt : (s.conversation_history ++ [(⟨role, some content⟩ : HistMsg)]).length > 10 := by
      rw [List.length_append, List.length_singleton, h10]
      omega
    unfold Session.add_to_history
    rw [if_pos hgt, hls]
    exact ⟨rfl, ls, rfl, rfl⟩
  · intro s role content hlt
    have hle : ¬ (s.conversation_history ++ [(⟨role, some content⟩ : HistMsg)]).length > 10 := by
      rw [List.length_append, List.length_singleton]
      omega
    unfold Session.add_to_history
    rw [if_neg hle]
    exact ⟨rfl, rfl⟩

/-- A concrete session whose history already holds 10 string messages. -/
def sessHist10 : Session :=
  { sessEmpty with conversation_history :=
      [⟨"user", some "m1"⟩, ⟨"assistant", some "m2"⟩, ⟨"user", some "m3"⟩,
       ⟨"assistant", some "m4"⟩, ⟨"user", some "m5"⟩, ⟨"assistant", some "m6"⟩,
       ⟨"user", some "m7"⟩, ⟨"assistant", some "m8"⟩, ⟨"user", some "m9"⟩,
       ⟨"assistant", some "m10"⟩] }

/-- Witness for C9 at concrete inputs. -/
theorem claim_c9_witness :
    (applyHistory [("user", "a"), ("assistant", "b"), ("user", "c")]
      (Session.create "w")).conversation_history.length ≤ 10 ∧
    ((sessHist10.add_to_history "user" (some "m11")).1.conversation_history
        = (sessHist10.conversation_history ++ [(⟨"user", some "m11"⟩ : HistMsg)]).drop 5 ∧
     ∃ ls, summaryLines ((sessHist10.conversation_history
              ++ [(⟨"user", some "m11"⟩ : HistMsg)]).take 5) = .ok ls ∧
       (sessHist10.add_to_history "user" (some "m11")).1.conversation_summary
          = some (appendSummary sessHist10.conversation_summary (String.intercalate "\n" ls))) ∧
    ((sessEmpty.add_to_history "user" (some "hi")).1.conversation_history
        = sessEmpty.conversation_history ++ [(⟨"user", some "hi"⟩ : HistMsg)] ∧
     (sessEmpty.add_to_history "user" (some "hi")).1.conversation_summary
        = sessEmpty.conversation_summary) :=
  ⟨claim_c9_history_bound.1 "w" _,
   claim_c9_history_bound.2.1 sessHist10 "user" "m11" (by decide) (by decide),
   claim_c9_history_bound.2.2 sessEmpty "user" "hi" (by decide)⟩

/-! ### Claims C2 and C10 -/

/-- `finalizeOrder` on an empty cart: failure report, nothing touched. -/
theorem finalizeOrder_empty (s : Session) (db : DB) (n p a : String)
    (h : s.cart = []) :
    finalizeOrder s db n p a
      = .ok ({ success := false, message := "Cart is empty. Cannot place order." }, s, db) := by
  unfold finalizeOrder Session.get_cart_items
  rw [h]
  rfl

/-- `finalizeOrder` on a non-empty cart: `AttributeError` before commit. -/
theorem finalizeOrder_nonempty (s : Session) (db : DB) (n p a : String)
    (h : s.cart ≠ []) :
    finalizeOrder s db n p a
      = .error (.attributeError "\x27CartItem\x27 object has no attribute \x27sku\x27") := by
  unfold finalizeOrder Session.get_cart_items
  cases hc : s.cart with
  | nil => exact absurd hc h
  | cons kv rest => rfl

/-- `complete_checkout` on an empty cart: the order-failed message, the flag
cleared, everything else untouched. -/
theorem complete_checkout_empty (info : CustomerInfo) (s : Session) (db : DB)
    (h : s.cart = []) :
    complete_checkout info s db
      = .ok ([.jsonMsg "message" "❌ Order failed: Cart is empty. Cannot place order."],
             { s with awaiting_checkout := false }, db) := by
  unfold complete_checkout
  rw [finalizeOrder_empty s db info.name info.phone info.address h]
  rfl

/-- `complete_checkout` on a non-empty cart: the `finalizeOrder` exception
propagates, so the flag is not cleared and nothing is sent or mutated. -/
theorem complete_checkout_nonempty (info : CustomerInfo) (s : Session) (db : DB)
    (h : s.cart ≠ []) :
    complete_checkout info s db
      = .error (.attributeError "\x27CartItem\x27 object has no attribute \x27sku\x27") := by
  unfold complete_checkout
  rw [finalizeOrder_nonempty s db info.name info.phone info.address h]
  rfl

/-- `addHistoryTwo` never touches the cart or the checkout flag. -/
theorem addHistoryTwo_fields (s : Session) (r1 : String) (c1 : Option String)
    (r2 : String) (c2 : Option String) :
    (addHistoryTwo s r1 c1 r2 c2).1.cart = s.cart ∧
    (addHistoryTwo s r1 c1 r2 c2).1.awaiting_checkout = s.awaiting_checkout := by
  unfold addHistoryTwo
  cases h1 : s.add_to_history r1 c1 with
  | mk s1 e1 =>
      have hf := add_to_history_fields s r1 c1
      rw [h1] at hf
      cases e1 with
      | some e => exact hf
      | none =>
          have hf2 := add_to_history_fields s1 r2 c2
          exact ⟨hf2.1.trans hf.1, hf2.2.trans hf.2⟩


/-- `checkoutTurn` reduces to the valid-info branch when the parser
succeeds. -/
theorem checkoutTurn_parse_some (s : Session) (db : DB) (msg : String)
    (info : CustomerInfo) (hparse : parse_customer_info msg = some info) :
    checkoutTurn s db msg = checkoutTurnParsed info s db msg := by
  unfold checkoutTurn
  rw [hparse]

/-- The valid-info tail returns the store it was given and never touches
the cart. -/
theorem checkoutOkTail_fields (evs : List OutEvent) (s1 : Session) (db1 : DB)
    (msg : String) :
    (checkoutOkTail evs s1 db1 msg).db = db1 ∧
    (checkoutOkTail evs s1 db1 msg).session.cart = s1.cart ∧
    (checkoutOkTail evs s1 db1 msg).session.awaiting_checkout = s1.awaiting_checkout := by
  unfold checkoutOkTail
  have hf := addHistoryTwo_fields s1 "user" (some msg) "assistant" none
  cases h2 : addHistoryTwo s1 "user" (some msg) "assistant" none with
  | mk s2 err =>
      rw [h2] at hf
      cases err with
      | none => exact ⟨rfl, hf.1, hf.2⟩
      | some e => exact ⟨rfl, hf.1, hf.2⟩

/-- Claim C2 amended: when the checkout parser succeeds, the finalize step
performs no stock re-validation and no stock decrement, and never commits
an order: the store is returned exactly as given and the cart is never
cleared — an empty cart yields the failure report, a non-empty cart raises
`AttributeError` and the turn answers with the generic checkout error,
leaving the session untouched. -/
theorem claim_c2_amended (s : Session) (db : DB) (msg : String) (info : CustomerInfo)
    (hparse : parse_customer_info msg = some info) :
    (checkoutTurn s db msg).db = db ∧
    (checkoutTurn s db msg).session.cart = s.cart ∧
    (s.cart ≠ [] →
       checkoutTurn s db msg
         = { events := [.text "Error processing checkout. Please try again.",
                        .text "__END__"],
             session := s, db := db }) := by
  rw [checkoutTurn_parse_some s db msg info hparse]
  unfold checkoutTurnParsed
  by_cases h : s.cart = []
  · rw [complete_checkout_empty info s db h]
    have hf := checkoutOkTail_fields
      [.jsonMsg "message" "❌ Order failed: Cart is empty. Cannot place order."]
      { s with awaiting_checkout := false } db msg
    exact ⟨hf.1, hf.2.1.trans (by rw [h]), fun hne => absurd h hne⟩
  · rw [complete_checkout_nonempty info s db h]
    exact ⟨rfl, rfl, fun _ => rfl⟩

/-- The conjunction the claim demands at a concrete parse-success input
whose single cart line passes stock validation (quantity 2 ≤ stock 5): an
order row committed, stock decremented to 3, the cart cleared. -/
def c2ClaimInstance : Prop :=
  (checkoutTurn sessCartAwait dbS1 "Name: John, Phone: 09123456789, Address: Main St").db.orders.length = 1 ∧
  (∀ p ∈ (checkoutTurn sessCartAwait dbS1 "Name: John, Phone: 09123456789, Address: Main St").db.products,
     p.stock = 3) ∧
  (checkoutTurn sessCartAwait dbS1 "Name: John, Phone: 09123456789, Address: Main St").session.cart = []

instance : Decidable c2ClaimInstance := by
  unfold c2ClaimInstance; infer_instance

/-- Claim C2 counterexample: at a parse-success input with a fully-valid
cart the code commits no order, leaves stock at 5, and keeps the cart —
the claim would require an order row, stock 3 and an empty cart. -/
theorem claim_c2_counterexample :
    parse_customer_info "Name: John, Phone: 09123456789, Address: Main St"
      = some { name := "John", phone := "09123456789", address := "Main St" } ∧
    sessCartAwait.cart = [(.intK 1, cartLine1)] ∧ cartLine1.quantity ≤ prodS1.stock ∧
    ¬ c2ClaimInstance := by
  refine ⟨by decide, by decide, by decide, by decide⟩

/-- Witness for C2 at a concrete non-empty-cart input. -/
theorem claim_c2_witness :
    (checkoutTurn sessCartAwait dbS1 "Name: John, Phone: 09123456789, Address: Main St").db = dbS1 ∧
    (checkoutTurn sessCartAwait dbS1 "Name: John, Phone: 09123456789, Address: Main St").session.cart
      = sessCartAwait.cart ∧
    (sessCartAwait.cart ≠ [] →
       checkoutTurn sessCartAwait dbS1 "Name: John, Phone: 09123456789, Address: Main St"
         = { events := [.text "Error processing checkout. Please try again.",
                        .text "__END__"],
             session := sessCartAwait, db := dbS1 }) :=
  claim_c2_amended sessCartAwait dbS1 "Name: John, Phone: 09123456789, Address: Main St"
    { name := "John", phone := "09123456789", address := "Main St" } (by decide)

/-- Claim C10 (confirmed): whenever `finalizeOrder` returns (rather than
raises), `complete_checkout` clears `awaiting_checkout` — in particular on
the failure report for an empty cart, where the reply is the order-failed
message and the cart, the rest of the session and the store are left
exactly as they were; with the flag cleared the next inbound message goes
to the normal agentic loop instead of a checkout re-prompt. -/
theorem claim_c10_flag_cleared (info : CustomerInfo) (s : Session) (db : DB) :
    (∀ evs s1 db1, complete_checkout info s db = .ok (evs, s1, db1) →
       s1.awaiting_checkout = false) ∧
    (s.cart = [] →
       complete_checkout info s db
         = .ok ([.jsonMsg "message" "❌ Order failed: Cart is empty. Cannot place order."],
                { s with awaiting_checkout := false }, db)) := by
  constructor
  · intro evs s1 db1 hok
    by_cases h : s.cart = []
    · rw [complete_checkout_empty info s db h] at hok
      simp only [Except.ok.injEq, Prod.mk.injEq] at hok
      rw [← hok.2.1]
    · rw [complete_checkout_nonempty info s db h] at hok
      exact absurd hok (by simp)
  · intro h
    exact complete_checkout_empty info s db h

/-- Witness for C10 at a concrete empty-cart session. -/
theorem claim_c10_witness :
    sessAwaitEmpty.cart = [] ∧
    complete_checkout { name := "John Doe", phone := "09123456789", address := "123 Main St" }
        sessAwaitEmpty dbS1
      = .ok ([.jsonMsg "message" "❌ Order failed: Cart is empty. Cannot place order."],
             { sessAwaitEmpty with awaiting_checkout := false }, dbS1) :=
  ⟨rfl,
   (claim_c10_flag_cleared
      { name := "John Doe", phone := "09123456789", address := "123 Main St" }
      sessAwaitEmpty dbS1).2 rfl⟩


/-! ### Claim C7 -/

/-- The checkout-signal tail always reports the signal. -/
theorem signalTail_sawSignal (um : String) (evs : List OutEvent) (s1 : Session)
    (db1 : DB) (msgs2 : List Msg) (mc : Nat) (ex1 : List String) :
    (signalTail um evs s1 db1 msgs2 mc ex1).sawSignal = true := by
  unfold signalTail
  cases h2 : addHistoryTwo s1 "user" (some um)
      "assistant" (some "Starting checkout process...") with
  | mk s2 err => cases err <;> rfl

/-- If every gateway response within the remaining budget is a reply with at
least one tool call, the loop either sees a checkout signal or burns the
whole budget: one gateway call per iteration, then the runaway-loop abort
message — and nothing else — is sent. -/
theorem runLoopAux_ceiling (gw : Nat → GwResp) (um : String) :
    ∀ (fuel : Nat) (s : Session) (db : DB) (msgs : List Msg) (mc : Nat) (ex : List String),
    (∀ i, i < fuel → ∃ content tcs, gw (mc + i) = .reply content tcs ∧ tcs ≠ []) →
    (runLoopAux gw um fuel s db msgs mc ex).sawSignal = true ∨
      ((runLoopAux gw um fuel s db msgs mc ex).modelCalls = mc + fuel ∧
       (runLoopAux gw um fuel s db msgs mc ex).halt = .tooLong ∧
       (runLoopAux gw um fuel s db msgs mc ex).events
         = [.text tooLongText, .text "__END__"]) := by
  intro fuel
  induction fuel with
  | zero =>
      intro s db msgs mc ex _h
      exact Or.inr ⟨rfl, rfl, rfl⟩
  | succ fuel ih =>
      intro s db msgs mc ex h
      rcases h 0 (Nat.succ_pos fuel) with ⟨content, tcs, hgw, htcs⟩
      rw [Nat.add_zero] at hgw
      cases tcs with
      | nil => exact absurd rfl htcs
      | cons c cs =>
          simp only [runLoopAux, hgw]
          cases hpb : processToolCalls (c :: cs) s db
              (msgs ++ [.assistant content (c :: cs)]) ex with
          | cont s1 db1 m2 ex1 =>
              have hshift : ∀ i, i < fuel →
                  ∃ content tcs, gw (mc + 1 + i) = .reply content tcs ∧ tcs ≠ [] := by
                intro i hi
                have := h (i + 1) (Nat.succ_lt_succ hi)
                rwa [show mc + (i + 1) = mc + 1 + i by omega] at this
              rcases ih s1 db1 m2 (mc + 1) ex1 hshift with hl | ⟨hm, hh, he⟩
              · exact Or.inl hl
              · exact Or.inr ⟨hm.trans (by omega), hh, he⟩
          | signal evs s1 db1 m2 ex1 =>
              exact Or.inl (signalTail_sawSignal um evs s1 db1 m2 (mc + 1) ex1)
          | failed e s1 db1 m2 ex1 => exact Or.inl rfl

/-- Claim C7 (confirmed): in a turn in which every model response carries at
least one tool call (never a bare answer, never a gateway failure) and no
tool result carries the checkout-signal discriminator, the orchestrator
makes exactly 20 model calls — the configured `max_iterations` ceiling —
and then, and only then, sends the user-visible "took too long" message
followed by the end sentinel. -/
theorem claim_c7_iteration_ceiling (gw : Nat → GwResp) (um : String)
    (s : Session) (db : DB) (msgs0 : List Msg)
    (hcalls : ∀ i, i < 20 → ∃ content tcs, gw i = .reply content tcs ∧ tcs ≠ [])
    (hnosig : (handle_message_with_streaming gw um s db msgs0).sawSignal = false) :
    (handle_message_with_streaming gw um s db msgs0).modelCalls = 20 ∧
    (handle_message_with_streaming gw um s db msgs0).halt = .tooLong ∧
    (handle_message_with_streaming gw um s db msgs0).events
      = [.text tooLongText, .text "__END__"] := by
  have hr := runLoopAux_ceiling gw um 20 s db msgs0 0 []
    (by intro i hi; simpa using hcalls i hi)
  unfold handle_message_with_streaming at hnosig ⊢
  rcases hr with hsig | hok
  · rw [hsig] at hnosig
    cases hnosig
  · simpa using hok

/-- A stubbed gateway that always returns one `getCartState` call. -/
def gwAlwaysCart : Nat → GwResp :=
  fun _ => .reply "" [{ id := "t1", name := "getCartState", args := [] }]

/-- Witness for C7 with the stubbed always-tool-calling gateway. -/
theorem claim_c7_witness :
    (∀ i, i < 20 → ∃ content tcs, gwAlwaysCart i = .reply content tcs ∧ tcs ≠ []) ∧
    (handle_message_with_streaming gwAlwaysCart "hi" sessEmpty dbS1 []).sawSignal = false ∧
    ((handle_message_with_streaming gwAlwaysCart "hi" sessEmpty dbS1 []).modelCalls = 20 ∧
     (handle_message_with_streaming gwAlwaysCart "hi" sessEmpty dbS1 []).halt = .tooLong ∧
     (handle_message_with_streaming gwAlwaysCart "hi" sessEmpty dbS1 []).events
       = [.text tooLongText, .text "__END__"]) :=
  ⟨fun _i _hi => ⟨"", [{ id := "t1", name := "getCartState", args := [] }], rfl,
     List.cons_ne_nil _ _⟩,
   rfl,
   claim_c7_iteration_ceiling gwAlwaysCart "hi" sessEmpty dbS1 []
     (fun _i _hi => ⟨"", [{ id := "t1", name := "getCartState", args := [] }], rfl,
        List.cons_ne_nil _ _⟩)
     rfl⟩

/-! ### Claim C8 -/

/-- Appending a string-content message to a well-formed history never
raises, and keeps the history well formed (no length bound needed). -/
theorem add_to_history_wf (s : Session) (r c : String) (hwf : HistWF s) :
    (s.add_to_history r (some c)).2 = none ∧
    HistWF (s.add_to_history r (some c)).1 := by
  have hall : ∀ m ∈ s.conversation_history ++ [(⟨r, some c⟩ : HistMsg)],
      m.content ≠ none := by
    intro m hm
    rcases List.mem_append.mp hm with h1 | h2
    · exact hwf m h1
    · rcases List.mem_singleton.mp h2 with rfl
      simp
  unfold Session.add_to_history
  by_cases h : (s.conversation_history ++ [(⟨r, some c⟩ : HistMsg)]).length > 10
  · rcases summaryLines_ok ((s.conversation_history ++ [(⟨r, some c⟩ : HistMsg)]).take 5)
      (fun m hm => hall m (List.take_subset 5 _ hm)) with ⟨ls, hls⟩
    rw [if_pos h, hls]
    exact ⟨rfl, fun m hm => hall m (List.drop_subset 5 _ hm)⟩
  · rw [if_neg h]
    exact ⟨rfl, hall⟩

/-- Two chained appends on a well-formed history never raise. -/
theorem addHistoryTwo_ok (s : Session) (r1 c1 r2 c2 : String) (hwf : HistWF s) :
    (addHistoryTwo s r1 (some c1) r2 (some c2)).2 = none := by
  unfold addHistoryTwo
  have h1 := add_to_history_wf s r1 c1 hwf
  cases hh : s.add_to_history r1 (some c1) with
  | mk s1 e1 =>
      rw [hh] at h1
      have he1 : e1 = none := h1.1
      subst he1
      exact (add_to_history_wf s1 r2 c2 h1.2).1

/-- Every append leaves the new message as the last history entry. -/
theorem add_to_history_suffix (s : Session) (r : String) (c : Option String) :
    ∃ X, (s.add_to_history r c).1.conversation_history
       = X ++ [(⟨r, c⟩ : HistMsg)] := by
  unfold Session.add_to_history
  by_cases h : (s.conversation_history ++ [(⟨r, c⟩ : HistMsg)]).length > 10
  · rw [if_pos h]
    cases hs : summaryLines ((s.conversation_history ++ [(⟨r, c⟩ : HistMsg)]).take 5) with
    | ok ls =>
        refine ⟨s.conversation_history.drop 5, ?_⟩
        have h5 : 5 ≤ s.conversation_history.length := by
          rw [List.length_append, List.length_singleton] at h
          omega
        show (s.conversation_history ++ [(⟨r, c⟩ : HistMsg)]).drop 5 = _
        rw [List.drop_append_of_le_length h5]
    | error e => exact ⟨s.conversation_history, rfl⟩
  · rw [if_neg h]
    exact ⟨s.conversation_history, rfl⟩

/-- An append preserves a two-message suffix pattern: if the history ends
with `m1`, after appending `m2` it ends with `[m1, m2]`. -/
theorem add_to_history_keeps_suffix (s : Session) (Y : List HistMsg) (m1 : HistMsg)
    (hY : s.conversation_history = Y ++ [m1]) (r2 : String) (c2 : Option String) :
    ∃ Z, (s.add_to_history r2 c2).1.conversation_history
       = Z ++ [m1, (⟨r2, c2⟩ : HistMsg)] := by
  unfold Session.add_to_history
  by_cases h : (s.conversation_history ++ [(⟨r2, c2⟩ : HistMsg)]).length > 10
  · rw [if_pos h]
    have h5 : 5 ≤ Y.length := by
      rw [hY] at h
      rw [List.length_append, List.length_append, List.length_singleton,
        List.length_singleton] at h
      omega
    cases hs : summaryLines ((s.conversation_history ++ [(⟨r2, c2⟩ : HistMsg)]).take 5) with
    | ok ls =>
        refine ⟨Y.drop 5, ?_⟩
        show (s.conversation_history ++ [(⟨r2, c2⟩ : HistMsg)]).drop 5 = _
        rw [hY, List.append_assoc, List.drop_append_of_le_length h5]
        rfl
    | error e =>
        refine ⟨Y, ?_⟩
        show s.conversation_history ++ [(⟨r2, c2⟩ : HistMsg)] = _
        rw [hY, List.append_assoc]
        rfl
  · rw [if_neg h]
    refine ⟨Y, ?_⟩
    show s.conversation_history ++ [(⟨r2, c2⟩ : HistMsg)] = _
    rw [hY, List.append_assoc]
    rfl

/-- After the two chained appends on a well-formed history, the last two
entries are exactly the two appended messages, in order. -/
theorem addHistoryTwo_suffix (s : Session) (r1 c1 r2 c2 : String) (hwf : HistWF s) :
    ∃ Z, (addHistoryTwo s r1 (some c1) r2 (some c2)).1.conversation_history
       = Z ++ [(⟨r1, some c1⟩ : HistMsg), (⟨r2, some c2⟩ : HistMsg)] := by
  unfold addHistoryTwo
  have h1 := add_to_history_wf s r1 c1 hwf
  rcases add_to_history_suffix s r1 (some c1) with ⟨Y, hY⟩
  cases hh : s.add_to_history r1 (some c1) with
  | mk s1 e1 =>
      rw [hh] at h1 hY
      have he1 : e1 = none := h1.1
      subst he1
      exact add_to_history_keeps_suffix s1 Y ⟨r1, some c1⟩ hY r2 (some c2)

/-- The dispatch trace of a fully-executed (signal-free) batch is the batch's
tool names appended to the incoming trace. -/
theorem processToolCalls_cont_executed :
    ∀ (l : List ToolCall) (s : Session) (db : DB) (m : List Msg) (ex : List String)
      (s1 : Session) (db1 : DB) (m1 : List Msg) (ex1 : List String),
    processToolCalls l s db m ex = .cont s1 db1 m1 ex1 →
    ex1 = ex ++ l.map (fun t => t.name) := by
  intro l
  induction l with
  | nil =>
      intro s db m ex s1 db1 m1 ex1 h
      unfold processToolCalls at h
      cases h
      simp
  | cons c rest ih =>
      intro s db m ex s1 db1 m1 ex1 h
      simp only [processToolCalls] at h
      by_cases hs : (execute_tool_call c.name c.args s db).1.isCheckoutSignal = true
      · rw [if_pos hs] at h
        cases hfl : handle_checkout_flow (execute_tool_call c.name c.args s db).1
            (execute_tool_call c.name c.args s db).2.1 with
        | ok v =>
            rcases v with ⟨evs, s2⟩
            rw [hfl] at h
            cases h
        | error e =>
            rw [hfl] at h
            cases h
      · rw [if_neg hs] at h
        have := ih _ _ _ _ _ _ _ _ h
        rw [this]
        simp

/-- A signal-free prefix composes: processing `l1 ++ l2` first runs `l1` to
its continuation state, then `l2`. -/
theorem processToolCalls_append_cont :
    ∀ (l1 l2 : List ToolCall) (s : Session) (db : DB) (m : List Msg) (ex : List String)
      (s1 : Session) (db1 : DB) (m1 : List Msg) (ex1 : List String),
    processToolCalls l1 s db m ex = .cont s1 db1 m1 ex1 →
    processToolCalls (l1 ++ l2) s db m ex = processToolCalls l2 s1 db1 m1 ex1 := by
  intro l1
  induction l1 with
  | nil =>
      intro l2 s db m ex s1 db1 m1 ex1 h
      unfold processToolCalls at h
      cases h
      rfl
  | cons c rest ih =>
      intro l2 s db m ex s1 db1 m1 ex1 h
      simp only [processToolCalls] at h
      show processToolCalls (c :: (rest ++ l2)) s db m ex = _
      simp only [processToolCalls]
      by_cases hs : (execute_tool_call c.name c.args s db).1.isCheckoutSignal = true
      · rw [if_pos hs] at h
        cases hfl : handle_checkout_flow (execute_tool_call c.name c.args s db).1
            (execute_tool_call c.name c.args s db).2.1 with
        | ok v =>
            rcases v with ⟨evs, s2⟩
            rw [hfl] at h
            cases h
        | error e =>
            rw [hfl] at h
            cases h
      · rw [if_neg hs] at h
        rw [if_neg hs]
        exact ih l2 _ _ _ _ _ _ _ _ h

/-- Dispatching a signaling call stops the batch: `handle_checkout_flow`
runs and the queued remainder is never dispatched. -/
theorem processToolCalls_signal_step (c : ToolCall) (post : List ToolCall)
    (s1 : Session) (db1 : DB) (m1 : List Msg) (ex1 : List String)
    (evs : List OutEvent) (s2 : Session)
    (hsig : (execute_tool_call c.name c.args s1 db1).1.isCheckoutSignal = true)
    (hflow : handle_checkout_flow (execute_tool_call c.name c.args s1 db1).1
               (execute_tool_call c.name c.args s1 db1).2.1 = .ok (evs, s2)) :
    processToolCalls (c :: post) s1 db1 m1 ex1
      = .signal evs s2 (execute_tool_call c.name c.args s1 db1).2.2 m1 (ex1 ++ [c.name]) := by
  simp only [processToolCalls]
  rw [if_pos hsig, hflow]

/-- A successful `handle_checkout_flow` only sets `awaiting_checkout`. -/
theorem handle_checkout_flow_ok (v : JVal) (s : Session) (evs : List OutEvent)
    (s2 : Session) (h : handle_checkout_flow v s = .ok (evs, s2)) :
    s2 = { s with awaiting_checkout := true } := by
  unfold handle_checkout_flow at h
  split at h
  · cases h
  · split at h
    · cases hl : itemSummaryLines _ with
      | ok lines =>
          rw [hl] at h
          simp only [Bind.bind, Except.bind, Except.ok.injEq, Prod.mk.injEq] at h
          exact h.2.symm
      | error e =>
          rw [hl] at h
          simp only [Bind.bind, Except.bind] at h
          cases h
    · cases h

/-- Under a well-formed history at the signal point, the signal tail ends the
turn with halt kind `checkout`, the checkout-flow events plus the end
sentinel, the given trace, and the two synthetic history entries. -/
theorem signalTail_spec (um : String) (evs : List OutEvent) (s2 : Session)
    (db1 : DB) (msgs2 : List Msg) (mc : Nat) (ex1 : List String)
    (hwf : HistWF s2) :
    signalTail um evs s2 db1 msgs2 mc ex1
      = { events := evs ++ [.text "__END__"],
          session := (addHistoryTwo s2 "user" (some um)
            "assistant" (some "Starting checkout process...")).1,
          db := db1, messages := msgs2, modelCalls := mc, executed := ex1,
          sawSignal := true, halt := .checkout } := by
  unfold signalTail
  have hok := addHistoryTwo_ok s2 "user" um "assistant" "Starting checkout process..." hwf
  cases hh : addHistoryTwo s2 "user" (some um)
      "assistant" (some "Starting checkout process...") with
  | mk s3 err =>
      rw [hh] at hok
      have : err = none := hok
      subst this
      rfl

/-- Claim C8 (confirmed): when, within one model turn, the batch of tool
calls is `pre ++ [c] ++ post` where running `pre` produces no
checkout-signal result and the result of `c` carries the
`initiate_checkout` discriminator (with a well-formed checkout prompt), the
orchestrator hands control to the checkout flow (`awaiting_checkout`
becomes set and the checkout prompt is sent), appends the synthetic
"Starting checkout process..." history entry, and terminates the turn after
this single model call; the dispatch trace is exactly the names of `pre`
plus `c` — the calls queued after the signaling one are never executed. -/
theorem claim_c8_checkout_preempts
    (gw : Nat → GwResp) (um content : String) (s : Session) (db : DB) (msgs0 : List Msg)
    (pre : List ToolCall) (c : ToolCall) (post : List ToolCall)
    (hgw : gw 0 = .reply content (pre ++ c :: post))
    (s1 : Session) (db1 : DB) (m1 : List Msg) (ex1 : List String)
    (hpre : processToolCalls pre s db (msgs0 ++ [.assistant content (pre ++ c :: post)]) []
              = .cont s1 db1 m1 ex1)
    (hsig : (execute_tool_call c.name c.args s1 db1).1.isCheckoutSignal = true)
    (evs : List OutEvent) (s2 : Session)
    (hflow : handle_checkout_flow (execute_tool_call c.name c.args s1 db1).1
               (execute_tool_call c.name c.args s1 db1).2.1 = .ok (evs, s2))
    (hwf2 : HistWF s2) :
    (handle_message_with_streaming gw um s db msgs0).halt = .checkout ∧
    (handle_message_with_streaming gw um s db msgs0).modelCalls = 1 ∧
    (handle_message_with_streaming gw um s db msgs0).sawSignal = true ∧
    (handle_message_with_streaming gw um s db msgs0).executed
      = pre.map (fun t => t.name) ++ [c.name] ∧
    (handle_message_with_streaming gw um s db msgs0).events = evs ++ [.text "__END__"] ∧
    (handle_message_with_streaming gw um s db msgs0).session.awaiting_checkout = true ∧
    ∃ Z, (handle_message_with_streaming gw um s db msgs0).session.conversation_history
        = Z ++ [(⟨"user", some um⟩ : HistMsg),
                (⟨"assistant", some "Starting checkout process..."⟩ : HistMsg)] := by
  have hne : ¬ ((pre ++ c :: post).isEmpty = true) := by
    cases hp : pre ++ c :: post with
    | nil =>
        exact absurd hp (by simp)
    | cons x xs => simp
  have hbatch : processToolCalls (pre ++ c :: post) s db
      (msgs0 ++ [.assistant content (pre ++ c :: post)]) []
        = .signal evs s2 (execute_tool_call c.name c.args s1 db1).2.2 m1 (ex1 ++ [c.name]) := by
    exact (processToolCalls_append_cont pre (c :: post) s db
      (msgs0 ++ [Msg.assistant content (pre ++ c :: post)]) [] s1 db1 m1 ex1 hpre).trans
      (processToolCalls_signal_step c post s1 db1 m1 ex1 evs s2 hsig hflow)
  have hstep : handle_message_with_streaming gw um s db msgs0
      = signalTail um evs s2 (execute_tool_call c.name c.args s1 db1).2.2 m1 1 (ex1 ++ [c.name]) := by
    unfold handle_message_with_streaming
    show runLoopAux gw um (Nat.succ 19) s db msgs0 0 [] = _
    simp only [runLoopAux, hgw]
    rw [if_neg hne, hbatch]
  have hex : ex1 = pre.map (fun t => t.name) := by
    have := processToolCalls_cont_executed pre s db
      (msgs0 ++ [.assistant content (pre ++ c :: post)]) [] s1 db1 m1 ex1 hpre
    simpa using this
  have hs2awaiting : s2.awaiting_checkout = true := by
    rw [handle_checkout_flow_ok (execute_tool_call c.name c.args s1 db1).1
      (execute_tool_call c.name c.args s1 db1).2.1 evs s2 hflow]
  rw [hstep, signalTail_spec um evs s2 (execute_tool_call c.name c.args s1 db1).2.2
    m1 1 (ex1 ++ [c.name]) hwf2]
  refine ⟨rfl, rfl, rfl, ?_, rfl, ?_, ?_⟩
  · show ex1 ++ [c.name] = pre.map (fun t => t.name) ++ [c.name]
    rw [hex]
  · show (addHistoryTwo s2 "user" (some um)
      "assistant" (some "Starting checkout process...")).1.awaiting_checkout = true
    rw [(addHistoryTwo_fields s2 "user" (some um)
      "assistant" (some "Starting checkout process...")).2]
    exact hs2awaiting
  · exact addHistoryTwo_suffix s2 "user" um "assistant" "Starting checkout process..." hwf2

/-- First call of the C8 witness batch. -/
def c8pre1 : ToolCall := { id := "a", name := "getCartState", args := [] }

/-- The signaling call of the C8 witness batch. -/
def c8sig : ToolCall := { id := "b", name := "initiateOrder", args := [] }

/-- The trailing call of the C8 witness batch — never executed. -/
def c8post1 : ToolCall := { id := "c", name := "addToCart", args := [("sku", .str "S1")] }

/-- The C8 witness batch `[getCartState, initiateOrder, addToCart]`. -/
def c8batch : List ToolCall := [c8pre1, c8sig, c8post1]

/-- A gateway whose (only observed) reply carries the C8 batch. -/
def gw8c : Nat → GwResp := fun _ => .reply "" c8batch

/-- The dispatch error object produced by `getCartState` on the non-empty
cart (see `getCartState`). -/
def c8errCart : JVal :=
  .obj [("error", .str
    "Function getCartState failed: \x27CartItem\x27 object has no attribute \x27sku\x27")]

/-- The message array after the signal-free prefix of the C8 batch. -/
def c8m1 : List Msg := [Msg.assistant "" c8batch, Msg.tool "getCartState" "a" c8errCart]

/-- The checkout prompt sent by `handle_checkout_flow` for the C8 cart. -/
def c8evs : List OutEvent :=
  [.jsonMsg "message"
    ("Great! Here\x27s what you\x27re ordering:\n\n  • 2x Prod - $100.00\n\n**Total: $200.00**\n\n"
      ++ "To complete your order, please provide:\n1. Your full name\n2. Phone number\n"
      ++ "3. Delivery address\n\nYou can send them in one message like:\n"
      ++ "`Name: John Doe, Phone: 09123456789, Address: 123 Main St`")]

/-- The session as the checkout flow leaves it in the C8 witness. -/
def c8s2 : Session := { sessCart with awaiting_checkout := true }

/-- The C8 cart total: two units at 100 each. -/
lemma c8total : sessCart.get_cart_total = 200 := by
  show ([cartLine1].map (fun it => it.price * (it.quantity : ℚ))).sum = 200
  simp only [List.map_cons, List.map_nil, List.sum_cons, List.sum_nil, cartLine1]
  norm_num

/-- Witness for C8: the batch `[getCartState, initiateOrder, addToCart]` on
a one-line cart signals at `initiateOrder` and the trailing `addToCart` is
never dispatched. -/
theorem claim_c8_witness :
    (handle_message_with_streaming gw8c "checkout please" sessCart dbS1 []).halt = .checkout ∧
    (handle_message_with_streaming gw8c "checkout please" sessCart dbS1 []).modelCalls = 1 ∧
    (handle_message_with_streaming gw8c "checkout please" sessCart dbS1 []).sawSignal = true ∧
    (handle_message_with_streaming gw8c "checkout please" sessCart dbS1 []).executed
      = [c8pre1].map (fun t => t.name) ++ [c8sig.name] ∧
    (handle_message_with_streaming gw8c "checkout please" sessCart dbS1 []).events
      = c8evs ++ [.text "__END__"] ∧
    (handle_message_with_streaming gw8c "checkout please" sessCart dbS1 []).session.awaiting_checkout
      = true ∧
    ∃ Z, (handle_message_with_streaming gw8c "checkout please" sessCart dbS1 []).session.conversation_history
        = Z ++ [(⟨"user", some "checkout please"⟩ : HistMsg),
                (⟨"assistant", some "Starting checkout process..."⟩ : HistMsg)] :=
  claim_c8_checkout_preempts gw8c "checkout please" "" sessCart dbS1 []
    [c8pre1] c8sig [c8post1] rfl sessCart dbS1 c8m1 ["getCartState"] rfl rfl
    c8evs c8s2
    (by
      show handle_checkout_flow
        (JVal.obj [
          ("type", .str "initiate_checkout"),
          ("cartSummary", .obj [
            ("itemCount", .int 1),
            ("total", .float sessCart.get_cart_total),
            ("items", .arr [JVal.obj [
              ("name", .str "Prod"),
              ("quantity", .int 2),
              ("price", .float 100)]])]),
          ("message", .str "Ready to place your order. I\x27ll need your delivery details.")])
        sessCart = Except.ok (c8evs, c8s2)
      rw [c8total]
      rfl)
    (by decide)
